import Mathlib

/-!
# GLGizmoMeasure: selection mode, cache invalidation and pick-proxy refresh

A shallow embedding of `src/slic3r/GUI/Gizmos/GLGizmoMeasure.cpp`.

* Numbers (`double`, `float`) are exact rationals; the approximate comparison
  `isApprox` of the linear-algebra library is a parameter (`Approx`).
* Pointers to model objects and volumes are addresses (`Nat`); the host model
  that they point into is part of the per-frame input.
* Operations that the language leaves undefined (dereferencing a null pointer,
  indexing a vector out of range) and the failing `assert` are reported as a
  `Fault`, together with the gizmo state reached when they happen.
* Renderable geometry is kept symbolically (which generator was called with
  which arguments, the `float` ones named by the exact number they are
  narrowed from); shader uniforms, colours and draw calls belong to the
  rendering backend and are not part of the state.
-/

namespace GLGizmoMeasure

/-! ## Geometry values -/

/-- Three-component vector (`Vec3d`, `Vec3f`). -/
structure Vec3d where
  x : ℚ
  y : ℚ
  z : ℚ
deriving DecidableEq, Repr

/-- Affine transform (`Transform3d`): the rows of the 3x3 linear block and the
translation column. -/
structure Transform3d where
  r0 : Vec3d
  r1 : Vec3d
  r2 : Vec3d
  t : Vec3d
deriving DecidableEq, Repr

/-- The two `isApprox` comparisons used by `update_if_needed`: on vectors
(instance scale and mirror) and on transforms (volume matrices). The receiver
of the call is the first argument. -/
structure Approx where
  vec : Vec3d → Vec3d → Bool
  mat : Transform3d → Transform3d → Bool

/-- Squared Euclidean norm of a vector. -/
def Vec3d.squaredNorm (v : Vec3d) : ℚ := v.x * v.x + v.y * v.y + v.z * v.z

/-- Componentwise difference. -/
def Vec3d.sub (a b : Vec3d) : Vec3d := ⟨a.x - b.x, a.y - b.y, a.z - b.z⟩

/-- Squared Frobenius norm of the matrix of a transform (the constant last row
`0 0 0 1` contributes 1). -/
def Transform3d.squaredNorm (m : Transform3d) : ℚ :=
  m.r0.squaredNorm + m.r1.squaredNorm + m.r2.squaredNorm + m.t.squaredNorm + 1

/-- Squared Frobenius norm of the difference of two transform matrices. -/
def Transform3d.squaredDist (a b : Transform3d) : ℚ :=
  (a.r0.sub b.r0).squaredNorm + (a.r1.sub b.r1).squaredNorm
    + (a.r2.sub b.r2).squaredNorm + (a.t.sub b.t).squaredNorm

/-- The fuzzy comparison of the linear-algebra library in exact arithmetic,
with precision `p`: the squared distance is at most `p^2` times the smaller of
the two squared norms. -/
def fuzzyApprox (p : ℚ) : Approx where
  vec a b := decide ((a.sub b).squaredNorm ≤ p * p * min a.squaredNorm b.squaredNorm)
  mat a b := decide (a.squaredDist b ≤ p * p * min a.squaredNorm b.squaredNorm)

/-! ## Surface features and the measuring engine -/

/-- Modelled from the spec: `Measure::SurfaceFeature` is declared outside this
file; section 3 gives it as a value-comparable tagged variant with payload
position for Point, (start, end) for Edge, (center, radius, normal) for Circle
and (plane-group index, normal, origin) for Plane. -/
inductive SurfaceFeature where
  | Undef
  | Point (position : Vec3d)
  | Edge (start : Vec3d) (stop : Vec3d)
  | Circle (center : Vec3d) (radius : ℚ) (normal : Vec3d)
  | Plane (idx : Nat) (normal : Vec3d) (origin : Vec3d)
deriving DecidableEq, Repr

/-- Indexed triangle mesh: vertex positions and, for every triangle, the three
vertex indices. -/
structure indexed_triangle_set where
  vertices : List Vec3d
  indices : List (Nat × Nat × Nat)
deriving DecidableEq, Repr

/-- Modelled from the spec: the mesh-analysis engine behind `Measure::Measuring`
is outside this file; section 6 gives it as a pure function of mesh content with
the two queries `resolve(triangleIndex, point)` and `planeGroups()`. -/
structure MeasureEngine where
  get_feature : indexed_triangle_set → Nat → Vec3d → Option SurfaceFeature
  get_planes_triangle_indices : indexed_triangle_set → List (List Nat)

/-- An oracle instance (`Measure::Measuring`): determined by the mesh copy it
was constructed from. -/
structure Measuring where
  its : indexed_triangle_set
deriving DecidableEq, Repr

/-! ## Host model -/

/-- Type tag of a volume (`ModelVolumeType`, an integer enumeration). -/
abbrev ModelVolumeType := Int

/-- A volume of the host model, at address `addr`. -/
structure ModelVolume where
  addr : Nat
  matrix : Transform3d
  type : ModelVolumeType
  mesh : indexed_triangle_set
deriving DecidableEq, Repr

/-- An instance of an object: its scaling factor and mirror vectors. -/
structure ModelInstance where
  scaling_factor : Vec3d
  mirror : Vec3d
deriving DecidableEq, Repr

/-- An object of the host model, at address `addr`. -/
structure ModelObject where
  addr : Nat
  volumes : List ModelVolume
  instances : List ModelInstance
deriving DecidableEq, Repr

/-- What `m_c->selection_info()` answers: the selected object (or null) and the
selected volume (or null), the latter paired with its owner, the answer of
`mv->get_object()`. -/
structure SelectionInfo where
  model_object : Option ModelObject
  model_volume : Option (ModelVolume × ModelObject)
deriving DecidableEq, Repr

/-- The object `update_if_needed` works on: the selected object, or the owner
of the selected volume when no object is selected (`mo = mv->get_object()`). -/
def SelectionInfo.live_object (si : SelectionInfo) : Option ModelObject :=
  match si.model_object with
  | some o => some o
  | none => si.model_volume.map (fun (p : ModelVolume × ModelObject) => p.2)

/-- The selected volume `mv`, or `none` for the null pointer. -/
def SelectionInfo.live_volume (si : SelectionInfo) : Option ModelVolume :=
  si.model_volume.map (fun (p : ModelVolume × ModelObject) => p.1)

/-! ## Renderable and pickable geometry -/

/-- A single-precision number (`float`), given by an exact number it is the
nearest `float` to. The model never computes with it. -/
structure float_value where
  nearest_to : ℚ
deriving DecidableEq, Repr

/-- Narrowing to `float`: the conversion `float(x)` of a `double`, a literal
such as `7.5f`, and the rounding of a product of two `float`s (the `float`
nearest to the exact product). -/
def to_float (x : ℚ) : float_value := ⟨x⟩

/-- Symbolic geometry: the generator that produced it and its arguments, the
numeric ones as the `float`s the generator receives. `triangles its ts` is the
patch built from the triangles `ts` of mesh `its` (three vertices and one face
normal per triangle). -/
inductive Geometry where
  | smooth_sphere (resolution : Nat) (radius : float_value)
  | smooth_cylinder (resolution : Nat) (radius : float_value) (height : float_value)
  | smooth_torus (primary : Nat) (secondary : Nat) (radius : float_value)
      (thickness : float_value)
  | triangles (its : indexed_triangle_set) (triangle_indices : List Nat)
deriving DecidableEq, Repr

/-- A renderable model (`GLModel`); `none` before `init_from` and after
`reset`. -/
structure GLModel where
  geometry : Option Geometry
deriving DecidableEq, Repr

/-- A proxy (`PickingModel`): a renderable model and a mesh raycaster, always
built together from one geometry; `none` when empty or reset. -/
structure PickingModel where
  geometry : Option Geometry
deriving DecidableEq, Repr

/-- An entry of the picking subsystem (`SceneRaycasterItem`): the id it was
registered under and the geometry its raycaster tests against. -/
structure SceneRaycasterItem where
  id : Int
  raycaster : Geometry
deriving DecidableEq, Repr

/-- The part of the canvas (`m_parent`) the gizmo writes to: the raycasters
registered under `SceneRaycaster::EType::Gizmo` and the on-top flag. -/
structure GLCanvas3D where
  gizmo_raycasters : List SceneRaycasterItem
  raycaster_gizmos_on_top : Bool
deriving DecidableEq, Repr

/-! ## Gizmo state -/

/-- Activation state of a gizmo (`GLGizmoBase::EState`). The source tests
`m_state == Off` and `m_state != On`; `Hover` stands for a state that is
neither. -/
inductive EState where
  | Off
  | Hover
  | On
deriving DecidableEq, Repr

/-- Selection mode (`EMode`). -/
inductive EMode where
  | BasicSelection
  | ExtendedSelection
deriving DecidableEq, Repr

/-- Modelled from the spec: the key auto-repeat filter `m_ctrl_kar_filter` is
declared in the header, outside this file; section 4.3 gives it as a debounce
counter that is incremented on key-down, reset on key-up and deactivation, and
whose first-press test is "counter is zero". The counter is unbounded. -/
structure KeyAutoRepeatFilter where
  m_count : Nat
deriving DecidableEq, Repr

/-- Increment the counter (`increase_count`). -/
def KeyAutoRepeatFilter.increase_count (f : KeyAutoRepeatFilter) : KeyAutoRepeatFilter :=
  ⟨f.m_count + 1⟩

/-- Set the counter to zero (`reset_count`). -/
def KeyAutoRepeatFilter.reset_count (_f : KeyAutoRepeatFilter) : KeyAutoRepeatFilter :=
  ⟨0⟩

/-- First press: no key-down counted since the last reset (`is_first`). -/
def KeyAutoRepeatFilter.is_first (f : KeyAutoRepeatFilter) : Bool :=
  f.m_count == 0

/-- The members of `GLGizmoMeasure` (and of its base class) that the functions
of this file read or write. `m_sphere` and `m_cylinder` are built once by the
constructor and never reassigned: they are the constants `m_sphere` and
`m_cylinder` below. -/
structure GizmoState where
  m_state : EState
  m_hover_id : Int
  m_parent : GLCanvas3D
  m_mode : EMode
  m_ctrl_kar_filter : KeyAutoRepeatFilter
  m_features : List SurfaceFeature
  m_measuring : Option Measuring
  m_circle : PickingModel
  m_plane : PickingModel
  m_plane_models_cache : List GLModel
  m_raycasters : List (Int × SceneRaycasterItem)
  m_volumes_matrices : List Transform3d
  m_volumes_types : List ModelVolumeType
  m_first_instance_scale : Vec3d
  m_first_instance_mirror : Vec3d
  m_old_model_object : Option Nat
  m_old_model_volume : Option Nat
  m_mouse_pos_x : Int
  m_mouse_pos_y : Int
  m_mouse_left_down : Bool
deriving DecidableEq, Repr

/-- The vector of ones (`Vec3d::Ones()`). -/
def Vec3d.Ones : Vec3d := ⟨1, 1, 1⟩

/-- State of a freshly constructed gizmo: switched off, Basic mode, no feature,
no oracle, nothing registered. -/
def GizmoState.initial : GizmoState where
  m_state := .Off
  m_hover_id := -1
  m_parent := ⟨[], false⟩
  m_mode := .BasicSelection
  m_ctrl_kar_filter := ⟨0⟩
  m_features := []
  m_measuring := none
  m_circle := ⟨none⟩
  m_plane := ⟨none⟩
  m_plane_models_cache := []
  m_raycasters := []
  m_volumes_matrices := []
  m_volumes_types := []
  m_first_instance_scale := Vec3d.Ones
  m_first_instance_mirror := Vec3d.Ones
  m_old_model_object := none
  m_old_model_volume := none
  m_mouse_pos_x := 0
  m_mouse_pos_y := 0
  m_mouse_left_down := false

/-- Pick id of the Point proxy. -/
def POINT_ID : Int := 100
/-- Pick id of the Edge proxy. -/
def EDGE_ID : Int := 200
/-- Pick id of the Circle ring proxy. -/
def CIRCLE_ID : Int := 300
/-- Pick id of the Circle centre proxy. -/
def CIRCLE_CENTER_ID : Int := 301
/-- Pick id of the Plane proxy. -/
def PLANE_ID : Int := 400

/-- The sphere proxy built by the constructor: `smooth_sphere(16, 7.5f)`. -/
def m_sphere : Geometry := .smooth_sphere 16 (to_float (15 / 2))

/-- The cylinder proxy built by the constructor:
`smooth_cylinder(16, 5.0f, 1.0f)`. -/
def m_cylinder : Geometry := .smooth_cylinder 16 (to_float 5) (to_float 1)

/-! ## Input events and the mode state machine -/

/-- The queries `on_mouse` makes on a `wxMouseEvent`. -/
structure wxMouseEvent where
  GetX : Int
  GetY : Int
  Moving : Bool
  LeftDown : Bool
  LeftUp : Bool
  Leaving : Bool
deriving DecidableEq, Repr

/-- Mouse handler (`GLGizmoMeasure::on_mouse`): the new state and the returned
flag. `first_hover_volume_idx` is the answer of
`m_parent.get_first_hover_volume_idx()`. -/
def on_mouse (s : GizmoState) (mouse_event : wxMouseEvent) (first_hover_volume_idx : Int) :
    GizmoState × Bool :=
  let s := { s with m_mouse_pos_x := mouse_event.GetX, m_mouse_pos_y := mouse_event.GetY }
  if mouse_event.Moving then
    ({ s with m_mouse_left_down := false }, false)
  else if mouse_event.LeftDown then
    if s.m_hover_id != -1 then
      ({ s with m_mouse_left_down := true }, true)
    else if first_hover_volume_idx >= 0 then
      ({ s with m_mouse_left_down := true }, false)
    else
      (s, false)
  else if mouse_event.LeftUp then
    if s.m_mouse_left_down then
      ({ s with m_mouse_left_down := false }, true)
    else
      (s, false)
  else if mouse_event.Leaving then
    ({ s with m_mouse_left_down := false }, false)
  else
    (s, false)

/-- The actions `gizmo_event` distinguishes (`SLAGizmoEventType`); `Other`
stands for every remaining member of the enumeration. -/
inductive SLAGizmoEventType where
  | CtrlDown
  | CtrlUp
  | Other
deriving DecidableEq, Repr

/-- Key handler (`GLGizmoMeasure::gizmo_event`): the new state and the returned
flag. The mouse position and the shift, alt and control flags are ignored by the
source. -/
def gizmo_event (s : GizmoState) (action : SLAGizmoEventType) : GizmoState × Bool :=
  if action = .CtrlDown then
    let s := if s.m_ctrl_kar_filter.is_first then
        (if !s.m_features.isEmpty then { s with m_mode := .ExtendedSelection } else s)
      else s
    ({ s with m_ctrl_kar_filter := s.m_ctrl_kar_filter.increase_count }, true)
  else if action = .CtrlUp then
    ({ s with m_ctrl_kar_filter := s.m_ctrl_kar_filter.reset_count,
              m_mode := .BasicSelection }, true)
  else
    (s, true)

/-- State-change hook (`GLGizmoMeasure::on_set_state`), called after `m_state`
has been assigned. -/
def on_set_state (s : GizmoState) : GizmoState :=
  if s.m_state = .Off then
    { s with m_ctrl_kar_filter := s.m_ctrl_kar_filter.reset_count }
  else
    { s with m_mode := .BasicSelection }

/-- Modelled from the spec: `GLGizmoBase::set_state` is outside this file;
activation and deactivation of the tool (section 4.3) assign `m_state` and then
run the hook `on_set_state`. -/
def set_state (s : GizmoState) (state : EState) : GizmoState :=
  on_set_state { s with m_state := state }

/-- The state after a run of key events, oldest first. -/
def gizmo_events (s : GizmoState) : List SLAGizmoEventType → GizmoState
  | [] => s
  | a :: as => gizmo_events (gizmo_event s a).1 as

/-- The selection mode after each event of a run, oldest first. -/
def mode_trace (s : GizmoState) : List SLAGizmoEventType → List EMode
  | [] => []
  | a :: as => (gizmo_event s a).1.m_mode :: mode_trace (gizmo_event s a).1 as

/-- Number of positions of a mode sequence at which the mode differs from the
one before it; `m` is the mode before the first element. -/
def mode_changes (m : EMode) : List EMode → Nat
  | [] => 0
  | m' :: ms => (if m' = m then 0 else 1) + mode_changes m' ms

/-! ## Cache invalidation: `update_if_needed` -/

/-- Ways in which a call can leave defined behaviour: a null pointer is
dereferenced, a vector is indexed (or its front taken) out of range, or the
`assert` of the Plane draw case fails. -/
inductive Fault where
  | null_pointer
  | out_of_range
  | assertion_failed
deriving DecidableEq, Repr

/-- The plane-model cache rebuilt from the plane groups of oracle `m`, one
model per group, in group order (lambda `update_plane_models_cache`). Here
`its` is the mesh the oracle was built from one statement earlier, and the
groups are the partition the oracle reports of the triangles of that mesh
(section 4.1), so the triangles the loop reads are triangles of `its`. -/
def update_plane_models_cache (eng : MeasureEngine) (m : Measuring)
    (its : indexed_triangle_set) : List GLModel :=
  (eng.get_planes_triangle_indices m.its).map
    (fun triangle_indices => GLModel.mk (some (Geometry.triangles its triangle_indices)))

/-- The mesh the oracle is built from in `do_update`:
`(volume != nullptr) ? volume->mesh().its : object->volumes.front()->mesh().its`;
`none` when the front of an empty volume list would be taken. -/
def active_mesh (object : ModelObject) (volume : Option ModelVolume) :
    Option indexed_triangle_set :=
  match volume with
  | some v => some v.mesh
  | none => object.volumes.head?.map (fun (v : ModelVolume) => v.mesh)

/-- The full rebuild (lambda `do_update`): new oracle from the mesh of the
volume, or of the first volume of the object when no volume is given; new plane
cache; snapshot overwritten with the live values. `object` is never null at the
call sites, so the branch `object != nullptr` is always taken. -/
def do_update (eng : MeasureEngine) (s : GizmoState) (object : ModelObject)
    (volume : Option ModelVolume) : GizmoState × Option Fault :=
  match active_mesh object volume with
  | none => (s, some Fault.out_of_range)
  | some its =>
    let s := { s with m_measuring := some ⟨its⟩ }
    let s := { s with m_plane_models_cache := update_plane_models_cache eng ⟨its⟩ its }
    let s := { s with m_volumes_matrices := [], m_volumes_types := [],
                      m_first_instance_scale := Vec3d.Ones,
                      m_first_instance_mirror := Vec3d.Ones }
    let s := { s with m_volumes_matrices := object.volumes.map (fun (vol : ModelVolume) => vol.matrix),
                      m_volumes_types := object.volumes.map (fun (vol : ModelVolume) => vol.type) }
    match object.instances.head? with
    | none => (s, some Fault.out_of_range)
    | some inst =>
      ({ s with m_first_instance_scale := inst.scaling_factor,
                m_first_instance_mirror := inst.mirror,
                m_old_model_object := some object.addr,
                m_old_model_volume := volume.map (fun (v : ModelVolume) => v.addr) }, none)

/-- Result of `update_if_needed`: the state, the number of completed rebuilds,
and the fault that stopped the call, if any. -/
structure UpdateOutcome where
  state : GizmoState
  rebuilds : Nat
  fault : Option Fault
deriving DecidableEq, Repr

/-- One call of `do_update` inside `update_if_needed`, counted. -/
def run_do_update (eng : MeasureEngine) (mo : ModelObject) (mv : Option ModelVolume)
    (r : UpdateOutcome) : UpdateOutcome :=
  match do_update eng r.state mo mv with
  | (s, none) => ⟨s, r.rebuilds + 1, none⟩
  | (s, some f) => ⟨s, r.rebuilds, some f⟩

/-- The per-volume comparison loop of `update_if_needed`, from index `i` on:
`true` as soon as a live matrix is not approximately the stored one or a live
type differs from the stored one. The stored type is read only when the
matrices agree. -/
def volumes_differ (ap : Approx) (matrices : List Transform3d) (types : List ModelVolumeType) :
    Nat → List ModelVolume → Except Fault Bool
  | _, [] => .ok false
  | i, vol :: rest =>
    match matrices.get? i with
    | none => .error Fault.out_of_range
    | some m =>
      if !ap.mat vol.matrix m then .ok true
      else
        match types.get? i with
        | none => .error Fault.out_of_range
        | some t =>
          if vol.type != t then .ok true
          else volumes_differ ap matrices types (i + 1) rest

/-- The first test of `update_if_needed`: no oracle yet, another object or
volume, or another number of volumes. -/
def identity_changed (s : GizmoState) (mo : ModelObject) (mv : Option ModelVolume) : Bool :=
  s.m_measuring.isNone || some mo.addr != s.m_old_model_object
    || mv.map (fun (v : ModelVolume) => v.addr) != s.m_old_model_volume
    || mo.volumes.length != s.m_volumes_matrices.length

/-- The second test of `update_if_needed`: scaling factor or mirror of the
first instance is not approximately the stored one. -/
def instance_changed (ap : Approx) (s : GizmoState) (inst : ModelInstance) : Bool :=
  !ap.vec inst.scaling_factor s.m_first_instance_scale
    || !ap.vec inst.mirror s.m_first_instance_mirror

/-- First statement of the checks of `update_if_needed`:
`if (!m_measuring || mo != m_old_model_object || mv != m_old_model_volume ||
mo->volumes.size() != m_volumes_matrices.size()) do_update(mo, mv);`. -/
def check_identity (eng : MeasureEngine) (mo : ModelObject) (mv : Option ModelVolume)
    (r : UpdateOutcome) : UpdateOutcome :=
  match r.fault with
  | some _ => r
  | none => if identity_changed r.state mo mv then run_do_update eng mo mv r else r

/-- Second statement: rebuild when scaling factor or mirror of the first
instance is not approximately the stored one. -/
def check_instance (ap : Approx) (eng : MeasureEngine) (mo : ModelObject)
    (mv : Option ModelVolume) (inst : ModelInstance) (r : UpdateOutcome) : UpdateOutcome :=
  match r.fault with
  | some _ => r
  | none => if instance_changed ap r.state inst then run_do_update eng mo mv r else r

/-- Third statement: the loop over the volumes, with a rebuild and `break` at
the first volume whose matrix or type differs from the stored one. -/
def check_volumes (ap : Approx) (eng : MeasureEngine) (mo : ModelObject)
    (mv : Option ModelVolume) (r : UpdateOutcome) : UpdateOutcome :=
  match r.fault with
  | some _ => r
  | none =>
    match volumes_differ ap r.state.m_volumes_matrices r.state.m_volumes_types 0 mo.volumes with
    | .error f => ⟨r.state, r.rebuilds, some f⟩
    | .ok true => run_do_update eng mo mv r
    | .ok false => r

/-- Invalidation check and rebuild (`GLGizmoMeasure::update_if_needed`). -/
def update_if_needed (ap : Approx) (eng : MeasureEngine) (s : GizmoState)
    (si : SelectionInfo) : UpdateOutcome :=
  if s.m_state != EState.On || (si.model_object.isNone && si.model_volume.isNone) then
    ⟨s, 0, none⟩
  else
    match si.live_object with
    | none => ⟨s, 0, none⟩
    | some mo =>
      let mv := si.live_volume
      match mo.instances.head? with
      | none => ⟨s, 0, none⟩
      | some inst =>
        check_volumes ap eng mo mv
          (check_instance ap eng mo mv inst (check_identity eng mo mv ⟨s, 0, none⟩))

/-- Selection-change hook (`GLGizmoMeasure::data_changed`). `single` is
`is_single_full_instance() || is_from_single_object()`; `model_object` and
`model_volume` are the addresses the selection resolves to in that case. -/
def data_changed (ap : Approx) (eng : MeasureEngine) (s : GizmoState) (single : Bool)
    (model_object : Nat) (model_volume : Nat) (si : SelectionInfo) : UpdateOutcome :=
  let mo : Option Nat := if single then some model_object else none
  let mv : Option Nat := if single then some model_volume else none
  if mo != s.m_old_model_object || mv != s.m_old_model_volume then
    update_if_needed ap eng s si
  else
    ⟨s, 0, none⟩

/-! ## Render pass: feature resolution and pick-proxy refresh -/

/-- What one render pass reads from its surroundings: the canvas and selection
queries, the host model the stored pointers point into, the camera zoom, the
mesh hit under the cursor (`unproject_on_mesh`) and whether the shader exists. -/
structure Frame where
  is_mouse_dragging : Bool
  printer_technology_is_sla : Bool
  is_single_full_instance : Bool
  is_single_volume : Bool
  is_single_volume_instance : Bool
  selection_info : SelectionInfo
  model_objects : List ModelObject
  model_matrix : Transform3d
  inv_zoom : ℚ
  facet_idx : Nat
  pos : Vec3d
  shader_available : Bool
deriving DecidableEq, Repr

/-- The live object at address `p`, if any. -/
def Frame.object_at (fr : Frame) (p : Nat) : Option ModelObject :=
  fr.model_objects.find? (fun o => o.addr == p)

/-- The live volume at address `p`, if any. -/
def Frame.volume_at (fr : Frame) (p : Nat) : Option ModelVolume :=
  (fr.model_objects.flatMap (fun (o : ModelObject) => o.volumes)).find? (fun v => v.addr == p)

/-- The mesh read through the stored pointers in the Plane case of the refresh:
`m_old_model_volume->mesh().its` when that pointer is not null, else
`m_old_model_object->volumes.front()->mesh().its`; `none` when a pointer on the
way is null or dangling or the volume list is empty. -/
def old_model_its (s : GizmoState) (fr : Frame) : Option indexed_triangle_set :=
  match s.m_old_model_volume with
  | some p => (fr.volume_at p).map (fun (v : ModelVolume) => v.mesh)
  | none =>
    match s.m_old_model_object with
    | none => none
    | some q =>
      match fr.object_at q with
      | none => none
      | some o => o.volumes.head?.map (fun (v : ModelVolume) => v.mesh)

/-- Insertion into the ordered map `m_raycasters` (`std::map::insert`): keys
stay sorted, an existing key keeps its value. -/
def raycasters_insert : List (Int × SceneRaycasterItem) → Int → SceneRaycasterItem →
    List (Int × SceneRaycasterItem)
  | [], k, v => [(k, v)]
  | (k', v') :: rest, k, v =>
    if k < k' then (k, v) :: (k', v') :: rest
    else if k = k' then (k', v') :: rest
    else (k', v') :: raycasters_insert rest k v

/-- Registration of one proxy:
`m_raycasters.insert({ id, m_parent.add_raycaster_for_picking(Gizmo, id, raycaster) })`. -/
def add_raycaster_for_picking (s : GizmoState) (id : Int) (raycaster : Geometry) : GizmoState :=
  { s with
    m_parent := { s.m_parent with
      gizmo_raycasters := s.m_parent.gizmo_raycasters ++ [⟨id, raycaster⟩] },
    m_raycasters := raycasters_insert s.m_raycasters id ⟨id, raycaster⟩ }

/-- Registration hook (`on_register_raycasters_for_picking`). -/
def on_register_raycasters_for_picking (s : GizmoState) : GizmoState :=
  { s with m_parent := { s.m_parent with raycaster_gizmos_on_top := true } }

/-- Removal of every gizmo raycaster (`on_unregister_raycasters_for_picking`). -/
def on_unregister_raycasters_for_picking (s : GizmoState) : GizmoState :=
  { s with m_parent := ⟨[], false⟩, m_raycasters := [] }

/-- The three corners of triangle `idx` of a mesh, read as the patch loop of the
Plane case reads them: `its.vertices[its.indices[idx][k]]` for `k = 0, 1, 2`;
`none` when `idx` or one of the three vertex indices is out of range. -/
def triangle_corners (its : indexed_triangle_set) (idx : Nat) :
    Option (Vec3d × Vec3d × Vec3d) :=
  match its.indices[idx]? with
  | none => none
  | some (i0, i1, i2) =>
    match its.vertices[i0]?, its.vertices[i1]?, its.vertices[i2]? with
    | some v0, some v1, some v2 => some (v0, v1, v2)
    | _, _, _ => none

/-- The loop `for (int idx : triangle_indices)` of the Plane case: the corners
of every listed triangle, in order; `none` as soon as one read is out of
range. -/
def patch_corners (its : indexed_triangle_set) :
    List Nat → Option (List (Vec3d × Vec3d × Vec3d))
  | [] => some []
  | idx :: rest =>
    match triangle_corners its idx with
    | none => none
    | some corners => (patch_corners its rest).map (fun l => corners :: l)

/-- Body of the loop over `m_features` in the refresh: proxy construction and
registration for one feature. In the Plane case the triangle indices come from
the stored oracle while the mesh is read anew through the stored pointers, so
the reads of the patch loop can leave the mesh. In the Circle case the torus
receives `float(radius)` and the `float` product `5.0f * inv_zoom`. -/
def register_feature (eng : MeasureEngine) (fr : Frame) (s : GizmoState) :
    SurfaceFeature → GizmoState × Option Fault
  | .Undef => (s, none)
  | .Point _ => (add_raycaster_for_picking s POINT_ID m_sphere, none)
  | .Edge _ _ => (add_raycaster_for_picking s EDGE_ID m_cylinder, none)
  | .Circle _ radius _ =>
    let circle_geometry :=
      Geometry.smooth_torus 64 16 (to_float radius) (to_float (5 * fr.inv_zoom))
    let s := { s with m_circle := ⟨some circle_geometry⟩ }
    let s := add_raycaster_for_picking s CIRCLE_ID circle_geometry
    (add_raycaster_for_picking s CIRCLE_CENTER_ID m_sphere, none)
  | .Plane idx _ _ =>
    match s.m_measuring with
    | none => (s, some Fault.null_pointer)
    | some m =>
      match (eng.get_planes_triangle_indices m.its).get? idx with
      | none => (s, some Fault.out_of_range)
      | some triangle_indices =>
        match old_model_its s fr with
        | none => (s, some Fault.null_pointer)
        | some its =>
          match patch_corners its triangle_indices with
          | none => (s, some Fault.out_of_range)
          | some _ =>
            let init_data := Geometry.triangles its triangle_indices
            let s := { s with m_plane := ⟨some init_data⟩ }
            (add_raycaster_for_picking s PLANE_ID init_data, none)

/-- The loop over the features of the refresh, stopping at the first fault. -/
def register_features (eng : MeasureEngine) (fr : Frame) :
    GizmoState → List SurfaceFeature → GizmoState × Option Fault
  | s, [] => (s, none)
  | s, feature :: rest =>
    match register_feature eng fr s feature with
    | (s', none) => register_features eng fr s' rest
    | (s', some f) => (s', some f)

/-- The feature list resolved in a pass: in Basic mode the answer of the oracle
for the hit triangle and point, if it has one; empty in Extended mode. -/
def resolve_features (eng : MeasureEngine) (s : GizmoState) (fr : Frame) :
    Except Fault (List SurfaceFeature) :=
  if s.m_mode = EMode.BasicSelection then
    match s.m_measuring with
    | none => .error Fault.null_pointer
    | some m => .ok (eng.get_feature m.its fr.facet_idx fr.pos).toList
  else .ok []

/-- The draw loop over `m_features`, as far as the state is concerned: the
Plane case asserts `idx < m_plane_models_cache.size()` before it indexes the
cache. -/
def draw_features (s : GizmoState) : List SurfaceFeature → Option Fault
  | [] => none
  | .Plane idx _ _ :: rest =>
    if idx < s.m_plane_models_cache.length then draw_features s rest
    else some Fault.assertion_failed
  | _ :: rest => draw_features s rest

/-- The second half of a pass: nothing when the shader is missing, else the
draw loop. -/
def render_features (s : GizmoState) (fr : Frame) : GizmoState × Option Fault :=
  if !fr.shader_available then (s, none)
  else (s, draw_features s s.m_features)

/-- One render pass (`GLGizmoMeasure::on_render`): the state reached and the
fault that stopped the pass, if any. -/
def on_render (ap : Approx) (eng : MeasureEngine) (s : GizmoState) (fr : Frame) :
    GizmoState × Option Fault :=
  if fr.is_mouse_dragging then (s, none)
  else if (fr.printer_technology_is_sla && fr.is_single_full_instance)
      || (fr.is_single_volume || fr.is_single_volume_instance) then
    let u := update_if_needed ap eng s fr.selection_info
    match u.fault with
    | some f => (u.state, some f)
    | none =>
      let s := u.state
      match resolve_features eng s fr with
      | .error f => (s, some f)
      | .ok features =>
        if s.m_mode = EMode.BasicSelection then
          if s.m_features != features then
            let s := on_unregister_raycasters_for_picking s
            let s := { s with m_features := features }
            if s.m_features.isEmpty then (s, none)
            else
              match register_features eng fr s s.m_features with
              | (s, some f) => (s, some f)
              | (s, none) => render_features s fr
          else render_features s fr
        else render_features s fr
  else (s, none)

/-! ## Example states -/

/-- A gizmo that is switched off while the mode is Extended. -/
def off_extended : GizmoState :=
  { GizmoState.initial with m_mode := EMode.ExtendedSelection, m_ctrl_kar_filter := ⟨3⟩ }

/-- A Basic-mode state with one Point feature under the cursor. -/
def basic_with_point : GizmoState :=
  { GizmoState.initial with m_state := EState.On, m_features := [SurfaceFeature.Point ⟨1, 2, 3⟩] }

/-- A state in which the left button is recorded as held. -/
def left_button_held : GizmoState :=
  { basic_with_point with m_mouse_left_down := true }

/-- A pointer-move event at position (10, 20). -/
def move_event : wxMouseEvent :=
  { GetX := 10, GetY := 20, Moving := true, LeftDown := false, LeftUp := false, Leaving := false }

/-! ## The rebuild condition, as the specification words it -/

/-- The rebuild condition of section 4.2 for live object `mo`, live volume
`mv` and first instance `inst` against the snapshot stored in `s`: (a) no
oracle exists, (b) the object or volume identity differs from the snapshot,
(c) the volume count differs from the number of stored matrices, (d) the
scaling factor or the mirror of the first instance is not approximately the
stored one, (e) some volume has a matrix not approximately the stored one or a
type tag other than the stored one. -/
def snapshot_stale (ap : Approx) (s : GizmoState) (mo : ModelObject)
    (mv : Option ModelVolume) (inst : ModelInstance) : Prop :=
  s.m_measuring = none ∨
  (s.m_old_model_object ≠ some mo.addr ∨
    s.m_old_model_volume ≠ mv.map (fun (v : ModelVolume) => v.addr)) ∨
  mo.volumes.length ≠ s.m_volumes_matrices.length ∨
  (ap.vec inst.scaling_factor s.m_first_instance_scale = false ∨
    ap.vec inst.mirror s.m_first_instance_mirror = false) ∨
  (∃ (i : Nat) (vol : ModelVolume) (m : Transform3d) (t : ModelVolumeType),
    mo.volumes[i]? = some vol ∧ s.m_volumes_matrices[i]? = some m ∧
    s.m_volumes_types[i]? = some t ∧ (ap.mat vol.matrix m = false ∨ vol.type ≠ t))

/-! ## Example world -/

/-- The comparison used in the examples: the strictest one, which holds only
between equal values. -/
def exact_approx : Approx where
  vec a b := a == b
  mat a b := a == b

/-- An engine for the examples: every triangle of the mesh is a plane group of
its own, and a hit on triangle `i` of the mesh resolves to the Plane feature of
group `i`; a hit outside the mesh resolves to nothing. -/
def facet_engine : MeasureEngine where
  get_feature its facet_idx pos :=
    if facet_idx < its.indices.length then some (SurfaceFeature.Plane facet_idx ⟨0, 0, 1⟩ pos)
    else none
  get_planes_triangle_indices its := (List.range its.indices.length).map (fun i => [i])

/-- The identity transform. -/
def Transform3d.Identity : Transform3d := ⟨⟨1, 0, 0⟩, ⟨0, 1, 0⟩, ⟨0, 0, 1⟩, ⟨0, 0, 0⟩⟩

/-- A mesh of two triangles (a unit square). -/
def square_mesh : indexed_triangle_set :=
  { vertices := [⟨0, 0, 0⟩, ⟨1, 0, 0⟩, ⟨1, 1, 0⟩, ⟨0, 1, 0⟩], indices := [(0, 1, 2), (0, 2, 3)] }

/-- A mesh of one triangle. -/
def triangle_mesh : indexed_triangle_set :=
  { vertices := [⟨0, 0, 0⟩, ⟨1, 0, 0⟩, ⟨0, 1, 0⟩], indices := [(0, 1, 2)] }

/-- The volume of the square object, at address 11. -/
def square_volume : ModelVolume :=
  { addr := 11, matrix := Transform3d.Identity, type := 0, mesh := square_mesh }

/-- An object with the square volume and one unscaled instance, at address 1. -/
def square_object : ModelObject :=
  { addr := 1, volumes := [square_volume], instances := [⟨Vec3d.Ones, Vec3d.Ones⟩] }

/-- The volume of the triangle object, at address 21. -/
def triangle_volume : ModelVolume :=
  { addr := 21, matrix := Transform3d.Identity, type := 0, mesh := triangle_mesh }

/-- An object with the triangle volume and one unscaled instance, at address 2. -/
def triangle_object : ModelObject :=
  { addr := 2, volumes := [triangle_volume], instances := [⟨Vec3d.Ones, Vec3d.Ones⟩] }

/-- The square object with its instance mirrored on the X axis. -/
def square_object_mirrored : ModelObject :=
  { square_object with instances := [⟨Vec3d.Ones, ⟨-1, 1, 1⟩⟩] }

/-- Selection of the square volume. -/
def square_selection : SelectionInfo :=
  { model_object := some square_object, model_volume := some (square_volume, square_object) }

/-- Selection of the mirrored square object. -/
def square_mirrored_selection : SelectionInfo :=
  { model_object := some square_object_mirrored,
    model_volume := some (square_volume, square_object_mirrored) }

/-- Selection of the triangle volume. -/
def triangle_selection : SelectionInfo :=
  { model_object := some triangle_object, model_volume := some (triangle_volume, triangle_object) }

/-- The gizmo switched on, before its first render pass. -/
def switched_on : GizmoState := set_state GizmoState.initial EState.On

/-- The gizmo after one update on the selected square volume. -/
def square_cached : GizmoState :=
  (update_if_needed exact_approx facet_engine switched_on square_selection).state

/-- States `a` and `b` agree outside the invalidation data: every member other
than the oracle, the plane cache and the six snapshot members is the same. -/
def same_outside_cache (a b : GizmoState) : Prop :=
  a = { b with m_measuring := a.m_measuring,
               m_plane_models_cache := a.m_plane_models_cache,
               m_volumes_matrices := a.m_volumes_matrices,
               m_volumes_types := a.m_volumes_types,
               m_first_instance_scale := a.m_first_instance_scale,
               m_first_instance_mirror := a.m_first_instance_mirror,
               m_old_model_object := a.m_old_model_object,
               m_old_model_volume := a.m_old_model_volume }

/-- A render pass over the selected square volume, cursor on triangle 1. -/
def hover_square : Frame :=
  { is_mouse_dragging := false, printer_technology_is_sla := false,
    is_single_full_instance := false, is_single_volume := true,
    is_single_volume_instance := false, selection_info := square_selection,
    model_objects := [square_object], model_matrix := Transform3d.Identity, inv_zoom := 1,
    facet_idx := 1, pos := ⟨1, 1, 0⟩, shader_available := true }

/-- A render pass after the selection moved to the triangle volume. -/
def hover_triangle : Frame :=
  { hover_square with selection_info := triangle_selection, model_objects := [triangle_object],
                      facet_idx := 0, pos := ⟨0, 0, 0⟩ }

/-- The gizmo after its first render pass over the square volume: the Plane
feature of group 1 is active and its proxy is registered. -/
def square_hovered : GizmoState :=
  (on_render exact_approx facet_engine switched_on hover_square).1

/-- The same with the Ctrl key pressed: Extended mode. -/
def square_locked : GizmoState :=
  (gizmo_event square_hovered SLAGizmoEventType.CtrlDown).1

/-- What can happen to the gizmo between two states: a render pass, a key
event, a mouse event, an activation change, or a selection change. -/
inductive Event where
  | render (fr : Frame)
  | key (action : SLAGizmoEventType)
  | mouse (mouse_event : wxMouseEvent) (first_hover_volume_idx : Int)
  | activation (state : EState)
  | selection (single : Bool) (model_object : Nat) (model_volume : Nat) (si : SelectionInfo)

/-- The state after one event. A render pass or an update stopped by a fault
contributes the state it had reached. -/
def step (ap : Approx) (eng : MeasureEngine) (s : GizmoState) : Event → GizmoState
  | .render fr => (on_render ap eng s fr).1
  | .key action => (gizmo_event s action).1
  | .mouse mouse_event first_hover_volume_idx =>
    (on_mouse s mouse_event first_hover_volume_idx).1
  | .activation state => set_state s state
  | .selection single model_object model_volume si =>
    (data_changed ap eng s single model_object model_volume si).state

/-- The state after a run of events, oldest first. -/
def run (ap : Approx) (eng : MeasureEngine) (s : GizmoState) : List Event → GizmoState
  | [] => s
  | e :: es => run ap eng (step ap eng s e) es

/-- The states the gizmo can be in: the initial state and every state one
event after a reachable state. -/
inductive Reachable (ap : Approx) (eng : MeasureEngine) : GizmoState → Prop where
  | initial : Reachable ap eng GizmoState.initial
  | step {s : GizmoState} (e : Event) (h : Reachable ap eng s) : Reachable ap eng (step ap eng s e)

/-- States `a` and `b` agree outside the pick proxies: every member other than
the canvas registry, `m_raycasters`, the circle proxy and the plane proxy is
the same. -/
def same_outside_proxies (a b : GizmoState) : Prop :=
  a = { b with m_parent := a.m_parent,
               m_raycasters := a.m_raycasters,
               m_circle := a.m_circle,
               m_plane := a.m_plane }

/-! ## Transforms of the draw cases -/

/-- Componentwise sum. -/
def Vec3d.add (a b : Vec3d) : Vec3d := ⟨a.x + b.x, a.y + b.y, a.z + b.z⟩

/-- Multiple of a vector by a scalar. -/
def Vec3d.smul (c : ℚ) (v : Vec3d) : Vec3d := ⟨c * v.x, c * v.y, c * v.z⟩

/-- Scalar product. -/
def Vec3d.dot (a b : Vec3d) : ℚ := a.x * b.x + a.y * b.y + a.z * b.z

/-- The origin (`Vec3d::Zero()`), the centre of the sphere proxy. -/
def Vec3d.Zero : Vec3d := ⟨0, 0, 0⟩

/-- A transform applied to a point (`Transform3d * Vec3d`): the linear block
times the point, plus the translation. -/
def Transform3d.apply (m : Transform3d) (v : Vec3d) : Vec3d :=
  ⟨m.r0.dot v + m.t.x, m.r1.dot v + m.t.y, m.r2.dot v + m.t.z⟩

/-- Product of two transforms (`Transform3d * Transform3d`): the product of the
linear blocks, and the first transform applied to the translation of the
second. -/
def Transform3d.mul (a b : Transform3d) : Transform3d :=
  { r0 := ((b.r0.smul a.r0.x).add (b.r1.smul a.r0.y)).add (b.r2.smul a.r0.z),
    r1 := ((b.r0.smul a.r1.x).add (b.r1.smul a.r1.y)).add (b.r2.smul a.r1.z),
    r2 := ((b.r0.smul a.r2.x).add (b.r1.smul a.r2.y)).add (b.r2.smul a.r2.z),
    t := a.apply b.t }

/-- Modelled from the spec: `Geometry::translation_transform` is declared
outside this file; section 4.5 gives it as the translation to the feature
position. -/
def translation_transform (translation : Vec3d) : Transform3d :=
  ⟨⟨1, 0, 0⟩, ⟨0, 1, 0⟩, ⟨0, 0, 1⟩, translation⟩

/-- Modelled from the spec: `Geometry::scale_transform` with one factor is
declared outside this file; section 4.5 gives it as the uniform scale by that
factor. -/
def scale_transform (scale : ℚ) : Transform3d :=
  ⟨⟨scale, 0, 0⟩, ⟨0, scale, 0⟩, ⟨0, 0, scale⟩, ⟨0, 0, 0⟩⟩

/-- The local `feature_matrix` of the Point draw case of `on_render`, given to
the shader (after the view matrix) and to the Point raycaster:
`model_matrix * translation_transform(position) * scale_transform(inv_zoom)`. -/
def point_feature_matrix (fr : Frame) (position : Vec3d) : Transform3d :=
  (fr.model_matrix.mul (translation_transform position)).mul (scale_transform fr.inv_zoom)

/-- The local `view_model_matrix` of the Plane draw case of `on_render`:
`view_matrix * model_matrix`. -/
def plane_view_model_matrix (view_matrix : Transform3d) (fr : Frame) : Transform3d :=
  view_matrix.mul fr.model_matrix

/-- The transform the Plane draw case of `on_render` gives to the Plane
raycaster: `it->second->set_transform(model_matrix)`. -/
def plane_raycaster_transform (fr : Frame) : Transform3d :=
  fr.model_matrix

/-- The position shown in the Point row of the panel
(`on_render_input_window`): `volume_matrix * curr_feature.get_point()`. -/
def panel_point_position (volume_matrix : Transform3d) (point : Vec3d) : Vec3d :=
  volume_matrix.apply point

/-- The square volume after its mesh was replaced in place by the one-triangle
mesh: same address, same matrix, same type. -/
def replaced_volume : ModelVolume :=
  { square_volume with mesh := triangle_mesh }

/-- The square object holding the volume with the replaced mesh. -/
def replaced_object : ModelObject :=
  { square_object with volumes := [replaced_volume] }

/-- A render pass over the square volume after its mesh was replaced in place,
cursor on triangle 1 at another point than before. -/
def hover_replaced : Frame :=
  { hover_square with
    selection_info :=
      { model_object := some replaced_object,
        model_volume := some (replaced_volume, replaced_object) },
    model_objects := [replaced_object], pos := ⟨0, 1, 0⟩ }

/-! ## Theorems: the mode state machine -/

/-- C1, as stated, fails: switched off in Extended mode, the gizmo stays in
Extended mode (only the counter is reset). -/
theorem on_set_state_off_mode_not_forced :
    off_extended.m_state = EState.Off ∧
      ¬ ((on_set_state off_extended).m_mode = EMode.BasicSelection ∧
          (on_set_state off_extended).m_ctrl_kar_filter.m_count = 0) := by
  decide

/-- C1 (amended): switching the tool off (`on_set_state` with `m_state == Off`)
sets the Ctrl debounce counter to zero and leaves the selection mode as it
was. -/
theorem on_set_state_off (s : GizmoState) (h : s.m_state = EState.Off) :
    (on_set_state s).m_mode = s.m_mode ∧
      (on_set_state s).m_ctrl_kar_filter.m_count = 0 := by
  simp [on_set_state, h, KeyAutoRepeatFilter.reset_count]

/-- C1 (amended) at the switched-off Extended state: the counter goes from 3 to
0, the mode stays Extended. -/
theorem on_set_state_off_witness :
    off_extended.m_state = EState.Off ∧
      (on_set_state off_extended).m_mode = EMode.ExtendedSelection ∧
      (on_set_state off_extended).m_ctrl_kar_filter.m_count = 0 :=
  ⟨rfl, on_set_state_off off_extended rfl⟩

/-- Activation forces Basic: `on_set_state` with `m_state` other than Off sets
the mode to Basic and leaves the counter alone. -/
theorem on_set_state_not_off (s : GizmoState) (h : s.m_state ≠ EState.Off) :
    (on_set_state s).m_mode = EMode.BasicSelection ∧
      (on_set_state s).m_ctrl_kar_filter = s.m_ctrl_kar_filter := by
  simp [on_set_state, h]

/-- The first Ctrl press (counter zero): the mode becomes Extended when a
feature is active and is kept otherwise; the counter becomes 1. -/
theorem ctrl_down_first_step (s : GizmoState) (hc : s.m_ctrl_kar_filter.m_count = 0) :
    (gizmo_event s SLAGizmoEventType.CtrlDown).1
      = { s with m_mode := if s.m_features = [] then s.m_mode else EMode.ExtendedSelection,
                 m_ctrl_kar_filter := ⟨1⟩ } := by
  cases hf : s.m_features with
  | nil =>
    simp [gizmo_event, KeyAutoRepeatFilter.is_first, KeyAutoRepeatFilter.increase_count,
      hc, hf]
  | cons a as =>
    simp [gizmo_event, KeyAutoRepeatFilter.is_first, KeyAutoRepeatFilter.increase_count,
      hc, hf]

/-- C2: from Basic mode with debounce counter zero, `gizmo_event(CtrlDown)`
yields Extended mode exactly when `m_features` is non-empty; the counter becomes
1 and `m_features` is unchanged. -/
theorem gizmo_event_ctrl_down_first (s : GizmoState)
    (hm : s.m_mode = EMode.BasicSelection) (hc : s.m_ctrl_kar_filter.m_count = 0) :
    ((gizmo_event s SLAGizmoEventType.CtrlDown).1.m_mode = EMode.ExtendedSelection
        ↔ s.m_features ≠ []) ∧
      (gizmo_event s SLAGizmoEventType.CtrlDown).1.m_ctrl_kar_filter.m_count = 1 ∧
      (gizmo_event s SLAGizmoEventType.CtrlDown).1.m_features = s.m_features := by
  cases hf : s.m_features with
  | nil =>
    simp [gizmo_event, KeyAutoRepeatFilter.is_first, KeyAutoRepeatFilter.increase_count,
      hc, hf, hm]
  | cons a as =>
    simp [gizmo_event, KeyAutoRepeatFilter.is_first, KeyAutoRepeatFilter.increase_count,
      hc, hf]

/-- C2 at a state with one feature: the first Ctrl press enters Extended. -/
theorem gizmo_event_ctrl_down_first_witness :
    ((gizmo_event basic_with_point SLAGizmoEventType.CtrlDown).1.m_mode
        = EMode.ExtendedSelection ↔ basic_with_point.m_features ≠ []) ∧
      (gizmo_event basic_with_point SLAGizmoEventType.CtrlDown).1.m_ctrl_kar_filter.m_count = 1 ∧
      (gizmo_event basic_with_point SLAGizmoEventType.CtrlDown).1.m_features
        = basic_with_point.m_features :=
  gizmo_event_ctrl_down_first basic_with_point rfl rfl

/-- C3: `gizmo_event(CtrlUp)` yields Basic mode and debounce counter zero and
leaves `m_features` unchanged, whatever the state before. -/
theorem gizmo_event_ctrl_up (s : GizmoState) :
    (gizmo_event s SLAGizmoEventType.CtrlUp).1.m_mode = EMode.BasicSelection ∧
      (gizmo_event s SLAGizmoEventType.CtrlUp).1.m_ctrl_kar_filter.m_count = 0 ∧
      (gizmo_event s SLAGizmoEventType.CtrlUp).1.m_features = s.m_features := by
  simp [gizmo_event, KeyAutoRepeatFilter.reset_count]

/-- A repeated Ctrl press (counter already positive) only increments the
counter. -/
theorem gizmo_event_ctrl_down_repeat (s : GizmoState) (hc : 0 < s.m_ctrl_kar_filter.m_count) :
    (gizmo_event s SLAGizmoEventType.CtrlDown).1
      = { s with m_ctrl_kar_filter := ⟨s.m_ctrl_kar_filter.m_count + 1⟩ } := by
  have h : s.m_ctrl_kar_filter.m_count ≠ 0 := Nat.pos_iff_ne_zero.mp hc
  simp [gizmo_event, KeyAutoRepeatFilter.is_first, KeyAutoRepeatFilter.increase_count, h]

/-- A run of key-repeat presses from a state whose counter is positive: the
mode is the same after every press and the counter grows by the length. -/
theorem ctrl_down_run_repeat (n : Nat) (s : GizmoState)
    (hc : 0 < s.m_ctrl_kar_filter.m_count) :
    mode_trace s (List.replicate n SLAGizmoEventType.CtrlDown) = List.replicate n s.m_mode ∧
      (gizmo_events s (List.replicate n SLAGizmoEventType.CtrlDown)).m_ctrl_kar_filter.m_count
        = s.m_ctrl_kar_filter.m_count + n ∧
      (gizmo_events s (List.replicate n SLAGizmoEventType.CtrlDown)).m_mode = s.m_mode := by
  induction n generalizing s with
  | zero => simp [mode_trace, gizmo_events]
  | succ k ih =>
    have hstep := gizmo_event_ctrl_down_repeat s hc
    have hk := ih (gizmo_event s SLAGizmoEventType.CtrlDown).1 (by rw [hstep]; simp)
    rw [hstep] at hk
    simp only [List.replicate_succ, mode_trace, gizmo_events, hstep]
    refine ⟨?_, ?_, ?_⟩
    · simpa using hk.1
    · have := hk.2.1
      simp at this
      omega
    · simpa using hk.2.2

/-- A constant mode sequence has no mode change. -/
theorem mode_changes_replicate (m : EMode) (n : Nat) :
    mode_changes m (List.replicate n m) = 0 := by
  induction n with
  | zero => rfl
  | succ k ih => simp [List.replicate_succ, mode_changes, ih]

/-- C4: from Basic mode with counter zero and a non-empty feature set, a run
of `n >= 1` consecutive `gizmo_event(CtrlDown)` changes the mode exactly once,
on the first event (Basic to Extended): the mode after every event of the run
is Extended, every later press finds the counter positive and leaves the mode
unchanged, and the counter ends at `n`. -/
theorem ctrl_down_run_one_transition (n : Nat) (s : GizmoState) (hn : 1 ≤ n)
    (hm : s.m_mode = EMode.BasicSelection) (hc : s.m_ctrl_kar_filter.m_count = 0)
    (hf : s.m_features ≠ []) :
    mode_trace s (List.replicate n SLAGizmoEventType.CtrlDown)
        = List.replicate n EMode.ExtendedSelection ∧
      mode_changes s.m_mode (mode_trace s (List.replicate n SLAGizmoEventType.CtrlDown)) = 1 ∧
      (∀ k, 1 ≤ k → k < n →
        0 < (gizmo_events s (List.replicate k SLAGizmoEventType.CtrlDown)).m_ctrl_kar_filter.m_count ∧
        (gizmo_event (gizmo_events s (List.replicate k SLAGizmoEventType.CtrlDown))
            SLAGizmoEventType.CtrlDown).1.m_mode
          = (gizmo_events s (List.replicate k SLAGizmoEventType.CtrlDown)).m_mode) ∧
      (gizmo_events s (List.replicate n SLAGizmoEventType.CtrlDown)).m_ctrl_kar_filter.m_count
        = n := by
  have hfirst := ctrl_down_first_step s hc
  have hext : (gizmo_event s SLAGizmoEventType.CtrlDown).1.m_mode = EMode.ExtendedSelection := by
    rw [hfirst]; simp [hf]
  have h2 : (gizmo_event s SLAGizmoEventType.CtrlDown).1.m_ctrl_kar_filter.m_count = 1 := by
    rw [hfirst]
  have hpos : 0 < (gizmo_event s SLAGizmoEventType.CtrlDown).1.m_ctrl_kar_filter.m_count := by
    rw [h2]; exact Nat.one_pos
  have tail : ∀ j, (gizmo_events s (List.replicate (j + 1) SLAGizmoEventType.CtrlDown)).m_ctrl_kar_filter.m_count
        = j + 1 ∧
      (gizmo_events s (List.replicate (j + 1) SLAGizmoEventType.CtrlDown)).m_mode
        = EMode.ExtendedSelection ∧
      mode_trace s (List.replicate (j + 1) SLAGizmoEventType.CtrlDown)
        = List.replicate (j + 1) EMode.ExtendedSelection := by
    intro j
    obtain ⟨t1, t2, t3⟩ := ctrl_down_run_repeat j (gizmo_event s SLAGizmoEventType.CtrlDown).1 hpos
    simp only [List.replicate_succ, gizmo_events, mode_trace]
    refine ⟨?_, ?_, ?_⟩
    · rw [t2, h2]; omega
    · rw [t3, hext]
    · rw [t1, hext]
  obtain ⟨m, rfl⟩ : ∃ m, n = m + 1 := ⟨n - 1, by omega⟩
  obtain ⟨c1, _, c3⟩ := tail m
  refine ⟨c3, ?_, ?_, c1⟩
  · rw [c3, hm, List.replicate_succ]
    simp [mode_changes, mode_changes_replicate]
  · intro k hk1 _
    obtain ⟨j, rfl⟩ : ∃ j, k = j + 1 := ⟨k - 1, by omega⟩
    obtain ⟨d1, _, _⟩ := tail j
    have hp : 0 < (gizmo_events s
        (List.replicate (j + 1) SLAGizmoEventType.CtrlDown)).m_ctrl_kar_filter.m_count := by
      rw [d1]; omega
    exact ⟨hp, by rw [gizmo_event_ctrl_down_repeat _ hp]⟩

/-- C4 at three key-repeat presses over one Point feature: one transition, the
counter ends at 3. -/
theorem ctrl_down_run_one_transition_witness :
    mode_trace basic_with_point (List.replicate 3 SLAGizmoEventType.CtrlDown)
        = [EMode.ExtendedSelection, EMode.ExtendedSelection, EMode.ExtendedSelection] ∧
      mode_changes basic_with_point.m_mode
        (mode_trace basic_with_point (List.replicate 3 SLAGizmoEventType.CtrlDown)) = 1 ∧
      (gizmo_events basic_with_point
        (List.replicate 3 SLAGizmoEventType.CtrlDown)).m_ctrl_kar_filter.m_count = 3 :=
  have h := ctrl_down_run_one_transition 3 basic_with_point (by decide) rfl rfl (by decide)
  ⟨h.1, h.2.1, h.2.2.2⟩

/-! ## Theorems: mouse events -/

/-- C10, as stated, fails: a pointer move while the left button is recorded as
held clears the flag `m_mouse_left_down`. -/
theorem on_mouse_moving_clears_left_down :
    move_event.Moving = true ∧ left_button_held.m_mouse_left_down = true ∧
      (on_mouse left_button_held move_event (-1)).1.m_mouse_left_down = false := by
  decide

/-- C10 (amended): on a pointer-move event `on_mouse` stores the cursor
position and sets `m_mouse_left_down` to false; every other member (selection
mode, active feature set, debounce counter among them) is unchanged, and the
event is reported as not consumed. -/
theorem on_mouse_moving (s : GizmoState) (mouse_event : wxMouseEvent)
    (first_hover_volume_idx : Int) (h : mouse_event.Moving = true) :
    (on_mouse s mouse_event first_hover_volume_idx).1
        = { s with m_mouse_pos_x := mouse_event.GetX, m_mouse_pos_y := mouse_event.GetY,
                   m_mouse_left_down := false } ∧
      (on_mouse s mouse_event first_hover_volume_idx).1.m_mode = s.m_mode ∧
      (on_mouse s mouse_event first_hover_volume_idx).1.m_features = s.m_features ∧
      (on_mouse s mouse_event first_hover_volume_idx).1.m_ctrl_kar_filter = s.m_ctrl_kar_filter ∧
      (on_mouse s mouse_event first_hover_volume_idx).2 = false := by
  simp [on_mouse, h]

/-- C10 (amended) at a pointer move to (10, 20) with the button recorded as
held. -/
theorem on_mouse_moving_witness :
    (on_mouse left_button_held move_event 0).1
        = { left_button_held with m_mouse_pos_x := 10, m_mouse_pos_y := 20,
                                  m_mouse_left_down := false } ∧
      (on_mouse left_button_held move_event 0).1.m_mode = left_button_held.m_mode ∧
      (on_mouse left_button_held move_event 0).1.m_features = left_button_held.m_features ∧
      (on_mouse left_button_held move_event 0).1.m_ctrl_kar_filter
        = left_button_held.m_ctrl_kar_filter ∧
      (on_mouse left_button_held move_event 0).2 = false :=
  on_mouse_moving left_button_held move_event 0 rfl

/-! ## Theorems: cache invalidation -/

/-- The snapshot written by a rebuild of object `mo` and volume `mv` on top of
state `s`, when the mesh `its` and the first instance `inst` are available. -/
theorem do_update_eq (eng : MeasureEngine) (s : GizmoState) (mo : ModelObject)
    (mv : Option ModelVolume) (its : indexed_triangle_set) (inst : ModelInstance)
    (hmesh : active_mesh mo mv = some its) (hinst : mo.instances.head? = some inst) :
    do_update eng s mo mv =
      ({ s with m_measuring := some ⟨its⟩,
                m_plane_models_cache := update_plane_models_cache eng ⟨its⟩ its,
                m_volumes_matrices := mo.volumes.map (fun (vol : ModelVolume) => vol.matrix),
                m_volumes_types := mo.volumes.map (fun (vol : ModelVolume) => vol.type),
                m_first_instance_scale := inst.scaling_factor,
                m_first_instance_mirror := inst.mirror,
                m_old_model_object := some mo.addr,
                m_old_model_volume := mv.map (fun (v : ModelVolume) => v.addr) }, none) := by
  simp [do_update, hmesh, hinst]

/-- A rebuild does not depend on the snapshot it overwrites: rebuilding twice
is rebuilding once. -/
theorem do_update_twice (eng : MeasureEngine) (s : GizmoState) (mo : ModelObject)
    (mv : Option ModelVolume) (its : indexed_triangle_set) (inst : ModelInstance)
    (hmesh : active_mesh mo mv = some its) (hinst : mo.instances.head? = some inst) :
    do_update eng (do_update eng s mo mv).1 mo mv = do_update eng s mo mv := by
  simp [do_update_eq eng _ mo mv its inst hmesh hinst]

/-- The comparison loop over a snapshot taken from the very volumes it is
compared with finds no difference, for a reflexive approximate equality. -/
theorem volumes_differ_self (ap : Approx) (hmat : ∀ m, ap.mat m m = true)
    (pre vols : List ModelVolume) :
    volumes_differ ap ((pre ++ vols).map (fun (vol : ModelVolume) => vol.matrix))
      ((pre ++ vols).map (fun (vol : ModelVolume) => vol.type)) pre.length vols = .ok false := by
  induction vols generalizing pre with
  | nil => simp [volumes_differ]
  | cons v rest ih =>
    have h := ih (pre ++ [v])
    simp only [List.append_assoc, List.singleton_append, List.length_append,
      List.length_singleton] at h
    have hm : ((pre ++ v :: rest).map (fun (vol : ModelVolume) => vol.matrix))[pre.length]?
        = some v.matrix := by
      rw [List.getElem?_map, List.getElem?_append_right (le_refl _)]
      simp
    have ht : ((pre ++ v :: rest).map (fun (vol : ModelVolume) => vol.type))[pre.length]?
        = some v.type := by
      rw [List.getElem?_map, List.getElem?_append_right (le_refl _)]
      simp
    simp only [volumes_differ, List.get?_eq_getElem?, hm, ht, hmat, h]
    simp

/-- The comparison loop on a snapshot that is long enough: it ends without a
fault, and it answers `true` exactly when some live volume has a matrix not
approximately the stored one or a type other than the stored one. -/
theorem volumes_differ_in_range (ap : Approx) (ms : List Transform3d)
    (ts : List ModelVolumeType) (vols : List ModelVolume) (i : Nat)
    (hm : i + vols.length ≤ ms.length) (ht : i + vols.length ≤ ts.length) :
    ∃ b, volumes_differ ap ms ts i vols = .ok b ∧
      (b = true ↔ ∃ j vol m t, vols[j]? = some vol ∧ ms[i + j]? = some m ∧
        ts[i + j]? = some t ∧ (ap.mat vol.matrix m = false ∨ vol.type ≠ t)) := by
  induction vols generalizing i with
  | nil => exact ⟨false, rfl, by simp⟩
  | cons v rest ih =>
    simp only [List.length_cons] at hm ht
    have him : i < ms.length := by omega
    have hit : i < ts.length := by omega
    have gm : ms[i]? = some ms[i] := List.getElem?_eq_getElem him
    have gt : ts[i]? = some ts[i] := List.getElem?_eq_getElem hit
    obtain ⟨b, hb, hiff⟩ := ih (i + 1) (by omega) (by omega)
    by_cases h1 : ap.mat v.matrix ms[i] = true
    · by_cases h2 : v.type = ts[i]
      · refine ⟨b, ?_, ?_⟩
        · simp only [volumes_differ, List.get?_eq_getElem?, gm, gt, h1, hb]
          simp [h2]
        · rw [hiff]
          constructor
          · rintro ⟨j, vol, m, t, a1, a2, a3, a4⟩
            refine ⟨j + 1, vol, m, t, by simpa using a1, ?_, ?_, a4⟩
            · rw [← a2]; congr 1; omega
            · rw [← a3]; congr 1; omega
          · rintro ⟨j, vol, m, t, a1, a2, a3, a4⟩
            cases j with
            | zero =>
              simp only [List.getElem?_cons_zero, Option.some.injEq, Nat.add_zero] at a1 a2 a3
              rw [gm] at a2
              rw [gt] at a3
              simp only [Option.some.injEq] at a2 a3
              subst a1 a2 a3
              rcases a4 with a4 | a4
              · rw [h1] at a4; exact absurd a4 (by decide)
              · exact absurd h2 a4
            | succ j =>
              refine ⟨j, vol, m, t, by simpa using a1, ?_, ?_, a4⟩
              · rw [← a2]; congr 1; omega
              · rw [← a3]; congr 1; omega
      · refine ⟨true, ?_, ?_⟩
        · simp only [volumes_differ, List.get?_eq_getElem?, gm, gt, h1]
          simp [h2]
        · simp only [true_iff]
          exact ⟨0, v, ms[i], ts[i], by simp, by simp, by simp, Or.inr h2⟩
    · refine ⟨true, ?_, ?_⟩
      · simp only [volumes_differ, List.get?_eq_getElem?, gm]
        simp [h1]
      · simp only [true_iff]
        exact ⟨0, v, ms[i], ts[i], by simp, by simp, by simp,
          Or.inl (by simpa using h1)⟩

/-- The first test of `update_if_needed` is conditions (a), (b), (c). -/
theorem identity_changed_iff (s : GizmoState) (mo : ModelObject) (mv : Option ModelVolume) :
    identity_changed s mo mv = true ↔
      (s.m_measuring = none ∨
        (s.m_old_model_object ≠ some mo.addr ∨
          s.m_old_model_volume ≠ mv.map (fun (v : ModelVolume) => v.addr)) ∨
        mo.volumes.length ≠ s.m_volumes_matrices.length) := by
  simp only [identity_changed, Bool.or_eq_true, Option.isNone_iff_eq_none, bne_iff_ne, ne_eq]
  constructor
  · rintro (((h | h) | h) | h)
    · exact Or.inl h
    · exact Or.inr (Or.inl (Or.inl (fun e => h e.symm)))
    · exact Or.inr (Or.inl (Or.inr (fun e => h e.symm)))
    · exact Or.inr (Or.inr h)
  · rintro (h | (h | h) | h)
    · exact Or.inl (Or.inl (Or.inl h))
    · exact Or.inl (Or.inl (Or.inr (fun e => h e.symm)))
    · exact Or.inl (Or.inr (fun e => h e.symm))
    · exact Or.inr h

/-- The second test of `update_if_needed` is condition (d). -/
theorem instance_changed_iff (ap : Approx) (s : GizmoState) (inst : ModelInstance) :
    instance_changed ap s inst = true ↔
      (ap.vec inst.scaling_factor s.m_first_instance_scale = false ∨
        ap.vec inst.mirror s.m_first_instance_mirror = false) := by
  simp [instance_changed]

/-- With the tool on, a live object and a first instance, `update_if_needed`
is its three tests in sequence. -/
theorem update_if_needed_unfold (ap : Approx) (eng : MeasureEngine) (s : GizmoState)
    (si : SelectionInfo) (mo : ModelObject) (inst : ModelInstance)
    (hOn : s.m_state = EState.On) (hmo : si.live_object = some mo)
    (hinst : mo.instances.head? = some inst) :
    update_if_needed ap eng s si =
      check_volumes ap eng mo si.live_volume
        (check_instance ap eng mo si.live_volume inst
          (check_identity eng mo si.live_volume ⟨s, 0, none⟩)) := by
  have hsel : (si.model_object.isNone && si.model_volume.isNone) = false := by
    cases h1 : si.model_object with
    | some o => simp
    | none =>
      cases h2 : si.model_volume with
      | some p => simp
      | none => simp [SelectionInfo.live_object, h1, h2] at hmo
  simp only [update_if_needed, hOn, hsel, hmo, hinst]
  simp

/-- One counted rebuild from a fault-free outcome. -/
theorem run_do_update_eq (eng : MeasureEngine) (mo : ModelObject) (mv : Option ModelVolume)
    (its : indexed_triangle_set) (inst : ModelInstance) (s : GizmoState) (n : Nat)
    (hmesh : active_mesh mo mv = some its) (hinst : mo.instances.head? = some inst) :
    run_do_update eng mo mv ⟨s, n, none⟩ = ⟨(do_update eng s mo mv).1, n + 1, none⟩ := by
  simp [run_do_update, do_update_eq eng s mo mv its inst hmesh hinst]

/-- Right after a rebuild the second and third test of `update_if_needed` find
nothing to do, for a reflexive approximate equality. -/
theorem rebuilt_is_fresh (ap : Approx) (eng : MeasureEngine) (s : GizmoState)
    (mo : ModelObject) (mv : Option ModelVolume) (its : indexed_triangle_set)
    (inst : ModelInstance)
    (hvec : ∀ v, ap.vec v v = true) (hmat : ∀ m, ap.mat m m = true)
    (hmesh : active_mesh mo mv = some its) (hinst : mo.instances.head? = some inst) :
    identity_changed (do_update eng s mo mv).1 mo mv = false ∧
      instance_changed ap (do_update eng s mo mv).1 inst = false ∧
      volumes_differ ap (do_update eng s mo mv).1.m_volumes_matrices
        (do_update eng s mo mv).1.m_volumes_types 0 mo.volumes = .ok false := by
  rw [do_update_eq eng s mo mv its inst hmesh hinst]
  refine ⟨by simp [identity_changed], by simp [instance_changed, hvec], ?_⟩
  exact volumes_differ_self ap hmat [] mo.volumes

/-- The two possible courses of `update_if_needed` with the tool on, a live
object with a first instance and a mesh to build the oracle from, on a state
whose two snapshot vectors have one length: either the snapshot is stale and
exactly one rebuild is made, or it is not and nothing changes. -/
theorem update_if_needed_cases (ap : Approx) (eng : MeasureEngine) (s : GizmoState)
    (si : SelectionInfo) (mo : ModelObject) (inst : ModelInstance) (its : indexed_triangle_set)
    (hvec : ∀ v, ap.vec v v = true) (hmat : ∀ m, ap.mat m m = true)
    (hOn : s.m_state = EState.On) (hmo : si.live_object = some mo)
    (hinst : mo.instances.head? = some inst)
    (hmesh : active_mesh mo si.live_volume = some its)
    (hlen : s.m_volumes_types.length = s.m_volumes_matrices.length) :
    (snapshot_stale ap s mo si.live_volume inst ∧
        update_if_needed ap eng s si = ⟨(do_update eng s mo si.live_volume).1, 1, none⟩) ∨
      (¬ snapshot_stale ap s mo si.live_volume inst ∧
        update_if_needed ap eng s si = ⟨s, 0, none⟩) := by
  obtain ⟨_, f2, f3⟩ := rebuilt_is_fresh ap eng s mo si.live_volume its inst hvec hmat hmesh hinst
  have hrun := run_do_update_eq eng mo si.live_volume its inst s 0 hmesh hinst
  rw [update_if_needed_unfold ap eng s si mo inst hOn hmo hinst]
  by_cases hid : identity_changed s mo si.live_volume = true
  · left
    refine ⟨?_, ?_⟩
    · rcases (identity_changed_iff s mo si.live_volume).mp hid with h | h | h
      · exact Or.inl h
      · exact Or.inr (Or.inl h)
      · exact Or.inr (Or.inr (Or.inl h))
    · simp [check_identity, check_instance, check_volumes, hid, hrun, f2, f3]
  · have hidf : identity_changed s mo si.live_volume = false := by simpa using hid
    have hnid := mt (identity_changed_iff s mo si.live_volume).mpr hid
    by_cases hin : instance_changed ap s inst = true
    · left
      refine ⟨?_, ?_⟩
      · exact Or.inr (Or.inr (Or.inr (Or.inl ((instance_changed_iff ap s inst).mp hin))))
      · simp [check_identity, check_instance, check_volumes, hidf, hin, hrun, f3]
    · have hinf : instance_changed ap s inst = false := by simpa using hin
      have hnin := mt (instance_changed_iff ap s inst).mpr hin
      have hcount : mo.volumes.length = s.m_volumes_matrices.length := by
        by_contra hne
        exact hnid (Or.inr (Or.inr hne))
      obtain ⟨b, hb, hiff⟩ := volumes_differ_in_range ap s.m_volumes_matrices s.m_volumes_types
        mo.volumes 0 (by omega) (by omega)
      simp only [Nat.zero_add] at hiff
      cases b with
      | true =>
        left
        refine ⟨Or.inr (Or.inr (Or.inr (Or.inr (hiff.mp rfl)))), ?_⟩
        simp [check_identity, check_instance, check_volumes, hidf, hinf, hb, hrun]
      | false =>
        right
        refine ⟨?_, ?_⟩
        · rintro (h | h | h | h | h)
          · exact hnid (Or.inl h)
          · exact hnid (Or.inr (Or.inl h))
          · exact hnid (Or.inr (Or.inr h))
          · exact hnin h
          · exact absurd (hiff.mpr h) (by decide)
        · simp [check_identity, check_instance, check_volumes, hidf, hinf, hb]

/-- A squared norm is not negative. -/
theorem Vec3d.squaredNorm_nonneg (v : Vec3d) : 0 ≤ v.squaredNorm :=
  add_nonneg (add_nonneg (mul_self_nonneg _) (mul_self_nonneg _)) (mul_self_nonneg _)

/-- The fuzzy comparison is reflexive on vectors, for every precision. -/
theorem fuzzyApprox_vec_refl (p : ℚ) (v : Vec3d) : (fuzzyApprox p).vec v v = true := by
  have h0 : (v.sub v).squaredNorm = 0 := by simp [Vec3d.sub, Vec3d.squaredNorm]
  have h1 : 0 ≤ v.squaredNorm := Vec3d.squaredNorm_nonneg v
  have h2 : 0 ≤ p * p * v.squaredNorm := mul_nonneg (mul_self_nonneg p) h1
  simp [fuzzyApprox, h0, h2]

/-- The fuzzy comparison is reflexive on transforms, for every precision. -/
theorem fuzzyApprox_mat_refl (p : ℚ) (m : Transform3d) : (fuzzyApprox p).mat m m = true := by
  have h0 : m.squaredDist m = 0 := by simp [Transform3d.squaredDist, Vec3d.sub, Vec3d.squaredNorm]
  have h1 : 0 ≤ m.squaredNorm := by
    unfold Transform3d.squaredNorm
    have a := Vec3d.squaredNorm_nonneg m.r0
    have b := Vec3d.squaredNorm_nonneg m.r1
    have c := Vec3d.squaredNorm_nonneg m.r2
    have d := Vec3d.squaredNorm_nonneg m.t
    linarith
  have h2 : 0 ≤ p * p * m.squaredNorm := mul_nonneg (mul_self_nonneg p) h1
  simp [fuzzyApprox, h0, h2]

/-- The exact comparison is reflexive on vectors. -/
theorem exact_approx_vec_refl (v : Vec3d) : exact_approx.vec v v = true := by
  simp [exact_approx]

/-- The exact comparison is reflexive on transforms. -/
theorem exact_approx_mat_refl (m : Transform3d) : exact_approx.mat m m = true := by
  simp [exact_approx]

/-- A mesh to build the oracle from exists when a volume is selected or the
object has a volume. -/
theorem active_mesh_some (mo : ModelObject) (si : SelectionInfo)
    (hmesh : si.model_volume ≠ none ∨ mo.volumes ≠ []) :
    ∃ its, active_mesh mo si.live_volume = some its := by
  cases hv : si.model_volume with
  | some p => exact ⟨p.1.mesh, by simp [active_mesh, SelectionInfo.live_volume, hv]⟩
  | none =>
    cases hvols : mo.volumes with
    | nil => simp [hv, hvols] at hmesh
    | cons v rest => exact ⟨v.mesh, by simp [active_mesh, SelectionInfo.live_volume, hv, hvols]⟩

/-- C5: with the tool On, a live object with a first instance (and a mesh to
build the oracle from), on a state whose two snapshot vectors have one length,
`update_if_needed` ends without a fault and performs a rebuild if and only if:
no oracle exists, or the object or volume identity differs from the snapshot,
or the volume count differs from the number of stored matrices, or the scaling
factor or mirror of the first instance is not approximately the stored one, or
some volume has a matrix not approximately the stored one or a type tag other
than the stored one. When it rebuilds, the result is that of one `do_update`;
when it does not, the state is unchanged. Approximate equality is reflexive. -/
theorem update_if_needed_rebuilds_iff (ap : Approx) (eng : MeasureEngine) (s : GizmoState)
    (si : SelectionInfo) (mo : ModelObject) (inst : ModelInstance)
    (hvec : ∀ v, ap.vec v v = true) (hmat : ∀ m, ap.mat m m = true)
    (hOn : s.m_state = EState.On) (hmo : si.live_object = some mo)
    (hinst : mo.instances.head? = some inst)
    (hmesh : si.model_volume ≠ none ∨ mo.volumes ≠ [])
    (hlen : s.m_volumes_types.length = s.m_volumes_matrices.length) :
    (update_if_needed ap eng s si).fault = none ∧
      (0 < (update_if_needed ap eng s si).rebuilds ↔
        (s.m_measuring = none ∨
          (s.m_old_model_object ≠ some mo.addr ∨
            s.m_old_model_volume ≠ si.live_volume.map (fun (v : ModelVolume) => v.addr)) ∨
          mo.volumes.length ≠ s.m_volumes_matrices.length ∨
          (ap.vec inst.scaling_factor s.m_first_instance_scale = false ∨
            ap.vec inst.mirror s.m_first_instance_mirror = false) ∨
          (∃ (i : Nat) (vol : ModelVolume) (m : Transform3d) (t : ModelVolumeType),
            mo.volumes[i]? = some vol ∧ s.m_volumes_matrices[i]? = some m ∧
            s.m_volumes_types[i]? = some t ∧ (ap.mat vol.matrix m = false ∨ vol.type ≠ t)))) ∧
      (update_if_needed ap eng s si).state
        = (if 0 < (update_if_needed ap eng s si).rebuilds
            then (do_update eng s mo si.live_volume).1 else s) := by
  obtain ⟨its, hits⟩ := active_mesh_some mo si hmesh
  rcases update_if_needed_cases ap eng s si mo inst its hvec hmat hOn hmo hinst hits hlen with
    ⟨hst, heq⟩ | ⟨hst, heq⟩
  · rw [heq]
    exact ⟨rfl, ⟨fun _ => hst, fun _ => Nat.one_pos⟩, by simp⟩
  · rw [heq]
    exact ⟨rfl, ⟨fun h => absurd h (by simp), fun h => absurd h hst⟩, by simp⟩

/-- C5 at the square object whose instance was mirrored after the snapshot was
taken: the call rebuilds (the mirror differs). -/
theorem update_if_needed_rebuilds_iff_witness :
    (update_if_needed exact_approx facet_engine square_cached square_mirrored_selection).fault = none ∧
      0 < (update_if_needed exact_approx facet_engine square_cached
        square_mirrored_selection).rebuilds :=
  have h := update_if_needed_rebuilds_iff exact_approx facet_engine square_cached
    square_mirrored_selection square_object_mirrored ⟨Vec3d.Ones, ⟨-1, 1, 1⟩⟩
    exact_approx_vec_refl exact_approx_mat_refl (by decide) rfl rfl (Or.inl (by decide))
    (by decide)
  ⟨h.1, h.2.1.mpr (Or.inr (Or.inr (Or.inr (Or.inl (Or.inr (by decide))))))⟩

/-- The early returns of `update_if_needed`: the tool is not On, nothing is
selected, or the live object has no instance. Nothing changes. -/
theorem update_if_needed_skip (ap : Approx) (eng : MeasureEngine) (s : GizmoState)
    (si : SelectionInfo)
    (h : s.m_state ≠ EState.On ∨ si.live_object = none ∨
      ∃ mo, si.live_object = some mo ∧ mo.instances = []) :
    update_if_needed ap eng s si = ⟨s, 0, none⟩ := by
  unfold update_if_needed
  split
  · rfl
  · rcases h with h | h | ⟨mo, h, hi⟩
    · rename_i hc
      simp [h] at hc
    · simp [h]
    · simp [h, hi]

/-- The live values a snapshot is taken from. -/
theorem do_update_snapshot (eng : MeasureEngine) (s : GizmoState) (mo : ModelObject)
    (mv : Option ModelVolume) (its : indexed_triangle_set) (inst : ModelInstance)
    (hmesh : active_mesh mo mv = some its) (hinst : mo.instances.head? = some inst) :
    (do_update eng s mo mv).1.m_old_model_object = some mo.addr ∧
      (do_update eng s mo mv).1.m_old_model_volume = mv.map (fun (v : ModelVolume) => v.addr) ∧
      (do_update eng s mo mv).1.m_volumes_matrices
        = mo.volumes.map (fun (vol : ModelVolume) => vol.matrix) ∧
      (do_update eng s mo mv).1.m_volumes_types
        = mo.volumes.map (fun (vol : ModelVolume) => vol.type) ∧
      (do_update eng s mo mv).1.m_first_instance_scale = inst.scaling_factor ∧
      (do_update eng s mo mv).1.m_first_instance_mirror = inst.mirror ∧
      (do_update eng s mo mv).1.m_state = s.m_state := by
  simp [do_update_eq eng s mo mv its inst hmesh hinst]

/-- C6: `update_if_needed` is idempotent on an unchanged live state. For every
gizmo state whose two snapshot vectors have one length and every selection
(with a mesh to build the oracle from), a call ends without a fault and
rebuilds at most once; whenever it rebuilds, the stored snapshot (object
identity, volume identity, per-volume matrices and types, first-instance scale
and mirror) afterwards equals the live values; and an immediately following
call with the same selection performs no rebuild and leaves the whole gizmo
state unchanged. Approximate equality is reflexive. -/
theorem update_if_needed_idempotent (ap : Approx) (eng : MeasureEngine) (s : GizmoState)
    (si : SelectionInfo)
    (hvec : ∀ v, ap.vec v v = true) (hmat : ∀ m, ap.mat m m = true)
    (hmesh : ∀ mo, si.live_object = some mo → si.model_volume ≠ none ∨ mo.volumes ≠ [])
    (hlen : s.m_volumes_types.length = s.m_volumes_matrices.length) :
    (update_if_needed ap eng s si).fault = none ∧
      (update_if_needed ap eng s si).rebuilds ≤ 1 ∧
      (0 < (update_if_needed ap eng s si).rebuilds →
        ∃ mo inst, si.live_object = some mo ∧ mo.instances.head? = some inst ∧
          (update_if_needed ap eng s si).state.m_old_model_object = some mo.addr ∧
          (update_if_needed ap eng s si).state.m_old_model_volume
            = si.live_volume.map (fun (v : ModelVolume) => v.addr) ∧
          (update_if_needed ap eng s si).state.m_volumes_matrices
            = mo.volumes.map (fun (vol : ModelVolume) => vol.matrix) ∧
          (update_if_needed ap eng s si).state.m_volumes_types
            = mo.volumes.map (fun (vol : ModelVolume) => vol.type) ∧
          (update_if_needed ap eng s si).state.m_first_instance_scale = inst.scaling_factor ∧
          (update_if_needed ap eng s si).state.m_first_instance_mirror = inst.mirror) ∧
      update_if_needed ap eng (update_if_needed ap eng s si).state si
        = ⟨(update_if_needed ap eng s si).state, 0, none⟩ := by
  by_cases hOn : s.m_state = EState.On
  · cases hmo : si.live_object with
    | none =>
      have hskip := update_if_needed_skip ap eng s si (Or.inr (Or.inl hmo))
      rw [hskip]
      exact ⟨rfl, by simp, fun h => absurd h (by simp), hskip⟩
    | some mo =>
      cases hinst : mo.instances.head? with
      | none =>
        have hnil : mo.instances = [] := List.head?_eq_none_iff.mp hinst
        have hskip := update_if_needed_skip ap eng s si (Or.inr (Or.inr ⟨mo, hmo, hnil⟩))
        rw [hskip]
        exact ⟨rfl, by simp, fun h => absurd h (by simp), hskip⟩
      | some inst =>
        obtain ⟨its, hits⟩ := active_mesh_some mo si (hmesh mo hmo)
        rcases update_if_needed_cases ap eng s si mo inst its hvec hmat hOn hmo hinst hits hlen
          with ⟨_, heq⟩ | ⟨_, heq⟩
        · obtain ⟨g1, g2, g3, g4, g5, g6, g7⟩ :=
            do_update_snapshot eng s mo si.live_volume its inst hits hinst
          obtain ⟨f1, f2, f3⟩ :=
            rebuilt_is_fresh ap eng s mo si.live_volume its inst hvec hmat hits hinst
          rw [heq]
          refine ⟨rfl, le_refl 1, fun _ => ⟨mo, inst, rfl, hinst, g1, g2, g3, g4, g5, g6⟩, ?_⟩
          rw [update_if_needed_unfold ap eng _ si mo inst (g7.trans hOn) hmo hinst]
          simp [check_identity, check_instance, check_volumes, f1, f2, f3]
        · rw [heq]
          exact ⟨rfl, by simp, fun h => absurd h (by simp), heq⟩
  · have hskip := update_if_needed_skip ap eng s si (Or.inl hOn)
    rw [hskip]
    exact ⟨rfl, by simp, fun h => absurd h (by simp), hskip⟩

/-- C6 at the first update on the selected square volume: it rebuilds once,
and the update that follows changes nothing. -/
theorem update_if_needed_idempotent_witness :
    (update_if_needed exact_approx facet_engine switched_on square_selection).rebuilds = 1 ∧
      update_if_needed exact_approx facet_engine
          (update_if_needed exact_approx facet_engine switched_on square_selection).state
          square_selection
        = ⟨(update_if_needed exact_approx facet_engine switched_on square_selection).state,
            0, none⟩ :=
  ⟨by decide,
    (update_if_needed_idempotent exact_approx facet_engine switched_on square_selection
      exact_approx_vec_refl exact_approx_mat_refl (fun _ _ => Or.inl (by decide))
      (by decide)).2.2.2⟩

/-! ## Theorems: the render pass -/

/-- Agreement outside the invalidation data is reflexive. -/
theorem same_outside_cache_refl (a : GizmoState) : same_outside_cache a a := by
  cases a
  simp [same_outside_cache]

/-- Agreement outside the invalidation data is transitive. -/
theorem same_outside_cache_trans {a b c : GizmoState} (h1 : same_outside_cache a b)
    (h2 : same_outside_cache b c) : same_outside_cache a c := by
  cases a; cases b; cases c
  simp only [same_outside_cache, GizmoState.mk.injEq] at h1 h2 ⊢
  simp_all

/-- What agreement outside the invalidation data says about the members the
render pass and the key handler work on. -/
theorem same_outside_cache_fields {a b : GizmoState} (h : same_outside_cache a b) :
    a.m_state = b.m_state ∧ a.m_mode = b.m_mode ∧ a.m_features = b.m_features ∧
      a.m_parent = b.m_parent ∧ a.m_raycasters = b.m_raycasters ∧
      a.m_circle = b.m_circle ∧ a.m_plane = b.m_plane ∧
      a.m_ctrl_kar_filter = b.m_ctrl_kar_filter := by
  cases a; cases b
  simp only [same_outside_cache, GizmoState.mk.injEq] at h
  simp_all

/-- A rebuild, complete or stopped by a fault, writes invalidation data only. -/
theorem do_update_frame (eng : MeasureEngine) (s : GizmoState) (mo : ModelObject)
    (mv : Option ModelVolume) : same_outside_cache (do_update eng s mo mv).1 s := by
  unfold do_update
  split
  · exact same_outside_cache_refl s
  · split <;> simp [same_outside_cache]

/-- A counted rebuild writes invalidation data only. -/
theorem run_do_update_frame (eng : MeasureEngine) (mo : ModelObject) (mv : Option ModelVolume)
    (r : UpdateOutcome) : same_outside_cache (run_do_update eng mo mv r).state r.state := by
  have h := do_update_frame eng r.state mo mv
  unfold run_do_update
  split <;> rename_i heq <;> rw [heq] at h <;> exact h

/-- The first check writes invalidation data only. -/
theorem check_identity_frame (eng : MeasureEngine) (mo : ModelObject) (mv : Option ModelVolume)
    (r : UpdateOutcome) : same_outside_cache (check_identity eng mo mv r).state r.state := by
  unfold check_identity
  split
  · exact same_outside_cache_refl _
  · split
    · exact run_do_update_frame eng mo mv r
    · exact same_outside_cache_refl _

/-- The second check writes invalidation data only. -/
theorem check_instance_frame (ap : Approx) (eng : MeasureEngine) (mo : ModelObject)
    (mv : Option ModelVolume) (inst : ModelInstance) (r : UpdateOutcome) :
    same_outside_cache (check_instance ap eng mo mv inst r).state r.state := by
  unfold check_instance
  split
  · exact same_outside_cache_refl _
  · split
    · exact run_do_update_frame eng mo mv r
    · exact same_outside_cache_refl _

/-- The third check writes invalidation data only. -/
theorem check_volumes_frame (ap : Approx) (eng : MeasureEngine) (mo : ModelObject)
    (mv : Option ModelVolume) (r : UpdateOutcome) :
    same_outside_cache (check_volumes ap eng mo mv r).state r.state := by
  unfold check_volumes
  split
  · exact same_outside_cache_refl _
  · split
    · exact same_outside_cache_refl _
    · exact run_do_update_frame eng mo mv r
    · exact same_outside_cache_refl _

/-- `update_if_needed`, complete or stopped by a fault, writes invalidation
data only. -/
theorem update_if_needed_frame (ap : Approx) (eng : MeasureEngine) (s : GizmoState)
    (si : SelectionInfo) : same_outside_cache (update_if_needed ap eng s si).state s := by
  unfold update_if_needed
  split
  · exact same_outside_cache_refl s
  · split
    · exact same_outside_cache_refl s
    · rename_i mo _
      split
      · exact same_outside_cache_refl s
      · rename_i inst _
        exact same_outside_cache_trans (check_volumes_frame ap eng mo _ _)
          (same_outside_cache_trans (check_instance_frame ap eng mo _ inst _)
            (check_identity_frame eng mo _ ⟨s, 0, none⟩))

/-- C7: in a render pass in Basic mode in which the feature set resolved from
the oracle equals the stored `m_features`, the refresh does nothing: the state
after the pass is the state before it or the state after the invalidation
check, no pick id is unregistered or registered (the registry of the canvas is
unchanged), and `m_raycasters`, `m_features`, the circle proxy and the plane
proxy are unchanged. -/
theorem on_render_same_features (ap : Approx) (eng : MeasureEngine) (s : GizmoState)
    (fr : Frame) (hm : s.m_mode = EMode.BasicSelection)
    (hres : resolve_features eng (update_if_needed ap eng s fr.selection_info).state fr
      = .ok s.m_features) :
    ((on_render ap eng s fr).1 = s ∨
        (on_render ap eng s fr).1 = (update_if_needed ap eng s fr.selection_info).state) ∧
      (on_render ap eng s fr).1.m_parent = s.m_parent ∧
      (on_render ap eng s fr).1.m_raycasters = s.m_raycasters ∧
      (on_render ap eng s fr).1.m_features = s.m_features ∧
      (on_render ap eng s fr).1.m_circle = s.m_circle ∧
      (on_render ap eng s fr).1.m_plane = s.m_plane := by
  obtain ⟨_, k2, k3, k4, k5, k6, k7, _⟩ :=
    same_outside_cache_fields (update_if_needed_frame ap eng s fr.selection_info)
  have hcases : (on_render ap eng s fr).1 = s ∨
      (on_render ap eng s fr).1 = (update_if_needed ap eng s fr.selection_info).state := by
    unfold on_render
    split
    · exact Or.inl rfl
    · split
      · right
        simp only []
        split
        · rfl
        · rw [hres]
          simp [k2, hm, k3, render_features]
          split <;> rfl
      · exact Or.inl rfl
  refine ⟨hcases, ?_⟩
  rcases hcases with h | h
  · rw [h]; exact ⟨rfl, rfl, rfl, rfl, rfl⟩
  · rw [h]; exact ⟨k4, k5, k3, k6, k7⟩

/-- C7 at a second pass over the square volume with the cursor unmoved: the
Plane proxy registered by the first pass stays as it is. -/
theorem on_render_same_features_witness :
    (on_render exact_approx facet_engine square_hovered hover_square).1.m_parent
        = square_hovered.m_parent ∧
      (on_render exact_approx facet_engine square_hovered hover_square).1.m_raycasters
        = square_hovered.m_raycasters ∧
      (on_render exact_approx facet_engine square_hovered hover_square).1.m_features
        = square_hovered.m_features ∧
      (on_render exact_approx facet_engine square_hovered hover_square).1.m_circle
        = square_hovered.m_circle ∧
      (on_render exact_approx facet_engine square_hovered hover_square).1.m_plane
        = square_hovered.m_plane :=
  (on_render_same_features exact_approx facet_engine square_hovered hover_square
    (by decide) rfl).2

/-- The draw loop either completes or stops at the failing assertion. -/
theorem draw_features_fault (s : GizmoState) (l : List SurfaceFeature) :
    draw_features s l = none ∨ draw_features s l = some Fault.assertion_failed := by
  induction l with
  | nil => exact Or.inl rfl
  | cons f rest ih =>
    cases f <;> simp only [draw_features] <;> try exact ih
    split
    · exact ih
    · exact Or.inr rfl

/-- The second half of a pass leaves the state alone and can only stop at the
failing assertion. -/
theorem render_features_eq (s : GizmoState) (fr : Frame) :
    (render_features s fr).1 = s ∧
      ((render_features s fr).2 = none ∨
        (render_features s fr).2 = some Fault.assertion_failed) := by
  unfold render_features
  split
  · exact ⟨rfl, Or.inl rfl⟩
  · exact ⟨rfl, draw_features_fault s s.m_features⟩

/-- Outside the condition of C8 on the patch reads: when the mesh behind the
stored volume pointer was replaced in place (same addresses, matrices and
types), the invalidation check rebuilds nothing, the stored oracle resolves
the Plane of group 1, and the refresh reads triangle 1 of a mesh of one
triangle: the pass stops out of range, after everything was unregistered and
before anything is registered. -/
theorem on_render_replaced_mesh_out_of_range :
    (update_if_needed exact_approx facet_engine square_hovered
        hover_replaced.selection_info).rebuilds = 0 ∧
      (on_render exact_approx facet_engine square_hovered hover_replaced).2
        = some Fault.out_of_range ∧
      (on_render exact_approx facet_engine square_hovered hover_replaced).1.m_features
        = [SurfaceFeature.Plane 1 ⟨0, 0, 1⟩ ⟨0, 1, 0⟩] ∧
      (on_render exact_approx facet_engine square_hovered hover_replaced).1.m_raycasters = [] ∧
      patch_corners triangle_mesh [1] = none := by
  refine ⟨?_, ?_, ?_, ?_, ?_⟩ <;> decide

/-- The engine of the examples meets the assumption of C9: a Plane feature it
returns for a mesh has a group index below the number of plane groups it
reports for that mesh. -/
theorem facet_engine_plane_in_range (its : indexed_triangle_set) (facet_idx : Nat) (pos : Vec3d)
    (idx : Nat) (n o : Vec3d)
    (h : facet_engine.get_feature its facet_idx pos = some (SurfaceFeature.Plane idx n o)) :
    idx < (facet_engine.get_planes_triangle_indices its).length := by
  simp only [facet_engine] at h ⊢
  split at h
  · injection h with h
    injection h with h1 _ _
    subst h1
    simpa using ‹facet_idx < its.indices.length›
  · exact absurd h (by simp)

/-- C9 fails on the code, with an engine that meets the assumption of the
claim. The tool is switched on; a first render pass over the
square volume (two plane groups) resolves the Plane feature of group 1 and
draws it; Ctrl is pressed (Extended mode); the selection moves to the triangle
volume (one plane group). The next render pass rebuilds the oracle and the
plane cache, keeps the stale feature because the mode is Extended, and stops at
the failing assertion `idx < m_plane_models_cache.size()` with `idx = 1` and a
cache of size 1. -/
theorem on_render_extended_stale_plane_assert :
    (∀ its facet_idx pos idx n o,
        facet_engine.get_feature its facet_idx pos = some (SurfaceFeature.Plane idx n o) →
        idx < (facet_engine.get_planes_triangle_indices its).length) ∧
      switched_on = set_state GizmoState.initial EState.On ∧
      on_render exact_approx facet_engine switched_on hover_square = (square_hovered, none) ∧
      square_hovered.m_features = [SurfaceFeature.Plane 1 ⟨0, 0, 1⟩ ⟨1, 1, 0⟩] ∧
      square_hovered.m_plane_models_cache.length = 2 ∧
      square_locked = (gizmo_event square_hovered SLAGizmoEventType.CtrlDown).1 ∧
      square_locked.m_mode = EMode.ExtendedSelection ∧
      (on_render exact_approx facet_engine square_locked hover_triangle).2
        = some Fault.assertion_failed ∧
      (on_render exact_approx facet_engine square_locked hover_triangle).1.m_features
        = [SurfaceFeature.Plane 1 ⟨0, 0, 1⟩ ⟨1, 1, 0⟩] ∧
      (on_render exact_approx facet_engine square_locked
        hover_triangle).1.m_plane_models_cache.length = 1 := by
  refine ⟨facet_engine_plane_in_range, rfl, ?_, ?_, ?_, rfl, ?_, ?_, ?_, ?_⟩ <;> decide

/-! ## Theorems: transforms of the draw cases -/

/-- Applying a product of transforms is applying the second, then the first. -/
theorem Transform3d.apply_mul (a b : Transform3d) (v : Vec3d) :
    (a.mul b).apply v = a.apply (b.apply v) := by
  simp only [Transform3d.mul, Transform3d.apply, Vec3d.dot, Vec3d.add, Vec3d.smul,
    Vec3d.mk.injEq]
  refine ⟨?_, ?_, ?_⟩ <;> ring

/-- C12: zoom compensation never moves a feature and never touches plane
patches. For every model matrix, position `p`, inverse-zoom factor and proxy
vertex `v`, in exact arithmetic: the Point proxy transform
`model_matrix * translation(p) * scale(inv_zoom)` maps `v` to
`model_matrix (p + inv_zoom * v)`; so the centre of the marker (the origin of
the sphere proxy) goes to `model_matrix p` whatever the zoom, which is the
position the panel shows for the same matrix; and the transforms of the Plane
draw case (the one given to the Plane raycaster, and the view-model matrix)
are the model matrix and `view_matrix * model_matrix`, whatever the zoom. -/
theorem zoom_compensation_keeps_position (fr : Frame) (view_matrix : Transform3d)
    (p v : Vec3d) (z : ℚ) :
    (point_feature_matrix { fr with inv_zoom := z } p).apply v
        = fr.model_matrix.apply (p.add (Vec3d.smul z v)) ∧
      (point_feature_matrix { fr with inv_zoom := z } p).apply Vec3d.Zero
        = fr.model_matrix.apply p ∧
      (point_feature_matrix { fr with inv_zoom := z } p).apply Vec3d.Zero
        = panel_point_position fr.model_matrix p ∧
      plane_raycaster_transform { fr with inv_zoom := z } = fr.model_matrix ∧
      plane_view_model_matrix view_matrix { fr with inv_zoom := z }
        = view_matrix.mul fr.model_matrix := by
  have key : ∀ w : Vec3d, (point_feature_matrix { fr with inv_zoom := z } p).apply w
      = fr.model_matrix.apply (p.add (Vec3d.smul z w)) := by
    intro w
    simp only [point_feature_matrix, Transform3d.apply_mul]
    congr 1
    simp only [translation_transform, scale_transform, Transform3d.apply, Vec3d.dot, Vec3d.add,
      Vec3d.smul, Vec3d.mk.injEq]
    refine ⟨?_, ?_, ?_⟩ <;> ring
  have zero : p.add (Vec3d.smul z Vec3d.Zero) = p := by
    cases p
    simp [Vec3d.add, Vec3d.smul, Vec3d.Zero]
  refine ⟨key v, ?_, ?_, rfl, rfl⟩
  · rw [key, zero]
  · rw [key, zero, panel_point_position]

/-! ## Theorems: invariants of the reachable states -/

/-- Agreement outside the pick proxies is reflexive. -/
theorem same_outside_proxies_refl (a : GizmoState) : same_outside_proxies a a := by
  cases a
  simp [same_outside_proxies]

/-- Agreement outside the pick proxies is transitive. -/
theorem same_outside_proxies_trans {a b c : GizmoState} (h1 : same_outside_proxies a b)
    (h2 : same_outside_proxies b c) : same_outside_proxies a c := by
  cases a; cases b; cases c
  simp only [same_outside_proxies, GizmoState.mk.injEq] at h1 h2 ⊢
  simp_all

/-- What agreement outside the pick proxies says about the mode, the feature
set and the invalidation data. -/
theorem same_outside_proxies_fields {a b : GizmoState} (h : same_outside_proxies a b) :
    a.m_mode = b.m_mode ∧ a.m_features = b.m_features ∧
      a.m_volumes_matrices = b.m_volumes_matrices ∧ a.m_volumes_types = b.m_volumes_types := by
  cases a; cases b
  simp only [same_outside_proxies, GizmoState.mk.injEq] at h
  simp_all

/-- One registration writes pick proxies only. -/
theorem add_raycaster_for_picking_frame (s : GizmoState) (id : Int) (g : Geometry) :
    same_outside_proxies (add_raycaster_for_picking s id g) s := by
  simp [same_outside_proxies, add_raycaster_for_picking]

/-- The loop body of the refresh, complete or stopped by a fault, writes pick
proxies only. -/
theorem register_feature_frame (eng : MeasureEngine) (fr : Frame) (s : GizmoState)
    (feature : SurfaceFeature) : same_outside_proxies (register_feature eng fr s feature).1 s := by
  cases feature with
  | Undef => exact same_outside_proxies_refl s
  | Point p => exact add_raycaster_for_picking_frame s _ _
  | Edge a b => exact add_raycaster_for_picking_frame s _ _
  | Circle c r n => simp [register_feature, same_outside_proxies, add_raycaster_for_picking]
  | Plane idx n o =>
    simp only [register_feature]
    split
    · exact same_outside_proxies_refl s
    · split
      · exact same_outside_proxies_refl s
      · split
        · exact same_outside_proxies_refl s
        · split
          · exact same_outside_proxies_refl s
          · simp [same_outside_proxies, add_raycaster_for_picking]

/-- The loop of the refresh, complete or stopped by a fault, writes pick
proxies only. -/
theorem register_features_frame (eng : MeasureEngine) (fr : Frame) (s : GizmoState)
    (l : List SurfaceFeature) : same_outside_proxies (register_features eng fr s l).1 s := by
  induction l generalizing s with
  | nil => exact same_outside_proxies_refl s
  | cons feature rest ih =>
    have h1 := register_feature_frame eng fr s feature
    simp only [register_features]
    rcases hreg : register_feature eng fr s feature with ⟨s', _ | f⟩
    · rw [hreg] at h1
      exact same_outside_proxies_trans (ih s') h1
    · rw [hreg] at h1
      exact h1

/-- The three courses of a render pass: it is skipped (state unchanged); or it
ends with the state the invalidation check left; or, in Basic mode with an
oracle, it refreshes: everything is unregistered, `m_features` becomes the
answer of the oracle, and then only pick proxies are written. -/
theorem on_render_cases (ap : Approx) (eng : MeasureEngine) (s : GizmoState) (fr : Frame) :
    (on_render ap eng s fr).1 = s ∨
      (on_render ap eng s fr).1 = (update_if_needed ap eng s fr.selection_info).state ∨
      ((update_if_needed ap eng s fr.selection_info).state.m_mode = EMode.BasicSelection ∧
        ∃ m, (update_if_needed ap eng s fr.selection_info).state.m_measuring = some m ∧
          same_outside_proxies (on_render ap eng s fr).1
            { on_unregister_raycasters_for_picking
                (update_if_needed ap eng s fr.selection_info).state with
              m_features := (eng.get_feature m.its fr.facet_idx fr.pos).toList }) := by
  unfold on_render
  split
  · exact Or.inl rfl
  · split
    · simp only []
      split
      · exact Or.inr (Or.inl rfl)
      · rcases hres : resolve_features eng
            (update_if_needed ap eng s fr.selection_info).state fr with f | features
        · exact Or.inr (Or.inl rfl)
        · simp only []
          have hrender : ∀ t : GizmoState, (render_features t fr).1 = t :=
            fun t => (render_features_eq t fr).1
          split
          · rename_i hmode
            split
            · right; right
              refine ⟨hmode, ?_⟩
              simp only [resolve_features, hmode, if_true] at hres
              cases hmeas : (update_if_needed ap eng s fr.selection_info).state.m_measuring with
              | none => simp [hmeas] at hres
              | some m =>
                rw [hmeas] at hres
                injection hres with hres
                refine ⟨m, rfl, ?_⟩
                rw [hres]
                split
                · exact same_outside_proxies_refl _
                · have hfr := register_features_frame eng fr
                    { on_unregister_raycasters_for_picking
                        (update_if_needed ap eng s fr.selection_info).state with
                      m_features := features } features
                  split
                  · rename_i heq
                    rw [heq] at hfr
                    exact hfr
                  · rename_i heq
                    rw [heq] at hfr
                    rw [hrender]
                    exact hfr
            · exact Or.inr (Or.inl (hrender _))
          · exact Or.inr (Or.inl (hrender _))
    · exact Or.inl rfl

/-- A property of states kept by every rebuild, complete or stopped by a fault,
is kept by `update_if_needed`. -/
theorem update_if_needed_preserves (ap : Approx) (eng : MeasureEngine)
    (P : GizmoState → Prop)
    (hP : ∀ t mo mv, P t → P (do_update eng t mo mv).1)
    (s : GizmoState) (si : SelectionInfo) (hs : P s) :
    P (update_if_needed ap eng s si).state := by
  have hrun : ∀ mo mv (r : UpdateOutcome), P r.state → P (run_do_update eng mo mv r).state := by
    intro mo mv r hr
    have h := hP r.state mo mv hr
    unfold run_do_update
    split <;> rename_i heq <;> rw [heq] at h <;> exact h
  have h1 : ∀ mo mv (r : UpdateOutcome), P r.state → P (check_identity eng mo mv r).state := by
    intro mo mv r hr
    unfold check_identity
    split
    · exact hr
    · split
      · exact hrun mo mv r hr
      · exact hr
  have h2 : ∀ mo mv inst (r : UpdateOutcome), P r.state →
      P (check_instance ap eng mo mv inst r).state := by
    intro mo mv inst r hr
    unfold check_instance
    split
    · exact hr
    · split
      · exact hrun mo mv r hr
      · exact hr
  have h3 : ∀ mo mv (r : UpdateOutcome), P r.state → P (check_volumes ap eng mo mv r).state := by
    intro mo mv r hr
    unfold check_volumes
    split
    · exact hr
    · split
      · exact hr
      · exact hrun mo mv r hr
      · exact hr
  unfold update_if_needed
  split
  · exact hs
  · split
    · exact hs
    · split
      · exact hs
      · exact h3 _ _ _ (h2 _ _ _ _ (h1 _ _ ⟨s, 0, none⟩ hs))

/-- A rebuild, complete or stopped by a fault, leaves the two snapshot vectors
with one length. -/
theorem do_update_snapshot_lengths (eng : MeasureEngine) (s : GizmoState) (mo : ModelObject)
    (mv : Option ModelVolume)
    (h : s.m_volumes_types.length = s.m_volumes_matrices.length) :
    (do_update eng s mo mv).1.m_volumes_types.length
      = (do_update eng s mo mv).1.m_volumes_matrices.length := by
  unfold do_update
  split
  · exact h
  · split <;> simp

/-- `update_if_needed`, complete or stopped by a fault, leaves the two
snapshot vectors with one length. -/
theorem update_if_needed_snapshot_lengths (ap : Approx) (eng : MeasureEngine)
    (s : GizmoState) (si : SelectionInfo)
    (h : s.m_volumes_types.length = s.m_volumes_matrices.length) :
    (update_if_needed ap eng s si).state.m_volumes_types.length
      = (update_if_needed ap eng s si).state.m_volumes_matrices.length :=
  update_if_needed_preserves ap eng
    (fun t => t.m_volumes_types.length = t.m_volumes_matrices.length)
    (fun t mo mv ht => do_update_snapshot_lengths eng t mo mv ht) s si h

/-- What a render pass does to the mode, the feature set and the snapshot
vectors: the mode is kept; the feature set is kept, or in Basic mode replaced
by the answer of an oracle; the snapshot vectors are those the invalidation
check left; and in Extended mode the registry and `m_raycasters` are kept
too. -/
theorem on_render_effect (ap : Approx) (eng : MeasureEngine) (s : GizmoState) (fr : Frame) :
    (on_render ap eng s fr).1.m_mode = s.m_mode ∧
      ((on_render ap eng s fr).1.m_features = s.m_features ∨
        (s.m_mode = EMode.BasicSelection ∧
          ∃ m : Measuring, (on_render ap eng s fr).1.m_features
            = (eng.get_feature m.its fr.facet_idx fr.pos).toList)) ∧
      (s.m_volumes_types.length = s.m_volumes_matrices.length →
        (on_render ap eng s fr).1.m_volumes_types.length
          = (on_render ap eng s fr).1.m_volumes_matrices.length) ∧
      (s.m_mode = EMode.ExtendedSelection →
        (on_render ap eng s fr).1.m_features = s.m_features ∧
        (on_render ap eng s fr).1.m_raycasters = s.m_raycasters ∧
        (on_render ap eng s fr).1.m_parent = s.m_parent) := by
  obtain ⟨_, k2, k3, k4, k5, _⟩ :=
    same_outside_cache_fields (update_if_needed_frame ap eng s fr.selection_info)
  have hlen := update_if_needed_snapshot_lengths ap eng s fr.selection_info
  rcases on_render_cases ap eng s fr with h | h | ⟨hmode, m, _, h⟩
  · rw [h]
    exact ⟨rfl, Or.inl rfl, id, fun _ => ⟨rfl, rfl, rfl⟩⟩
  · rw [h]
    exact ⟨k2, Or.inl k3, hlen, fun _ => ⟨k3, k5, k4⟩⟩
  · obtain ⟨p1, p2, p3, p4⟩ := same_outside_proxies_fields h
    have hbasic : s.m_mode = EMode.BasicSelection := k2.symm.trans hmode
    refine ⟨?_, Or.inr ⟨hbasic, m, ?_⟩, ?_, ?_⟩
    · rw [p1]; exact k2
    · rw [p2]
    · intro hl
      rw [p3, p4]
      exact hlen hl
    · intro hext
      rw [hbasic] at hext
      exact absurd hext (by decide)

/-- A key event keeps the feature set and the snapshot vectors, and leaves the
mode Extended only if it was Extended before or a feature is active. -/
theorem gizmo_event_effect (s : GizmoState) (action : SLAGizmoEventType) :
    (gizmo_event s action).1.m_features = s.m_features ∧
      (gizmo_event s action).1.m_volumes_types = s.m_volumes_types ∧
      (gizmo_event s action).1.m_volumes_matrices = s.m_volumes_matrices ∧
      ((gizmo_event s action).1.m_mode = EMode.ExtendedSelection →
        s.m_mode = EMode.ExtendedSelection ∨ s.m_features ≠ []) := by
  cases action with
  | CtrlDown =>
    by_cases hfirst : s.m_ctrl_kar_filter.is_first = true
    · cases hf : s.m_features with
      | nil => simp [gizmo_event, hfirst, hf]
      | cons a as => simp [gizmo_event, hfirst, hf]
    · simp only [gizmo_event, hfirst]
      exact ⟨rfl, rfl, rfl, fun h => Or.inl h⟩
  | CtrlUp => simp [gizmo_event]
  | Other =>
    simp only [gizmo_event]
    exact ⟨rfl, rfl, rfl, fun h => Or.inl h⟩

/-- A mouse event keeps the mode, the feature set and the snapshot vectors. -/
theorem on_mouse_effect (s : GizmoState) (mouse_event : wxMouseEvent)
    (first_hover_volume_idx : Int) :
    (on_mouse s mouse_event first_hover_volume_idx).1.m_mode = s.m_mode ∧
      (on_mouse s mouse_event first_hover_volume_idx).1.m_features = s.m_features ∧
      (on_mouse s mouse_event first_hover_volume_idx).1.m_volumes_types = s.m_volumes_types ∧
      (on_mouse s mouse_event first_hover_volume_idx).1.m_volumes_matrices
        = s.m_volumes_matrices := by
  unfold on_mouse
  simp only []
  split_ifs <;> exact ⟨rfl, rfl, rfl, rfl⟩

/-- An activation change keeps the feature set and the snapshot vectors, and
leaves the mode as it was or Basic. -/
theorem set_state_effect (s : GizmoState) (state : EState) :
    (set_state s state).m_features = s.m_features ∧
      (set_state s state).m_volumes_types = s.m_volumes_types ∧
      (set_state s state).m_volumes_matrices = s.m_volumes_matrices ∧
      ((set_state s state).m_mode = s.m_mode ∨
        (set_state s state).m_mode = EMode.BasicSelection) := by
  unfold set_state on_set_state
  split
  · exact ⟨rfl, rfl, rfl, Or.inl rfl⟩
  · exact ⟨rfl, rfl, rfl, Or.inr rfl⟩

/-- A selection change keeps the mode and the feature set, and leaves the two
snapshot vectors with one length. -/
theorem data_changed_effect (ap : Approx) (eng : MeasureEngine) (s : GizmoState)
    (single : Bool) (model_object model_volume : Nat) (si : SelectionInfo) :
    (data_changed ap eng s single model_object model_volume si).state.m_mode = s.m_mode ∧
      (data_changed ap eng s single model_object model_volume si).state.m_features
        = s.m_features ∧
      (s.m_volumes_types.length = s.m_volumes_matrices.length →
        (data_changed ap eng s single model_object model_volume si).state.m_volumes_types.length
          = (data_changed ap eng s single model_object model_volume
              si).state.m_volumes_matrices.length) := by
  obtain ⟨_, k2, k3, _⟩ := same_outside_cache_fields (update_if_needed_frame ap eng s si)
  have key : ∀ c : Bool,
      (if c then update_if_needed ap eng s si else ⟨s, 0, none⟩).state.m_mode = s.m_mode ∧
      (if c then update_if_needed ap eng s si else ⟨s, 0, none⟩).state.m_features
        = s.m_features ∧
      (s.m_volumes_types.length = s.m_volumes_matrices.length →
        (if c then update_if_needed ap eng s si else ⟨s, 0, none⟩).state.m_volumes_types.length
          = (if c then update_if_needed ap eng s si
              else ⟨s, 0, none⟩).state.m_volumes_matrices.length) := by
    intro c
    cases c
    · exact ⟨rfl, rfl, id⟩
    · exact ⟨k2, k3, update_if_needed_snapshot_lengths ap eng s si⟩
  unfold data_changed
  exact key _

/-- The invariant of the reachable states: at most one active feature; a
feature is active whenever the mode is Extended; the two snapshot vectors have
one length. -/
theorem reachable_invariant (ap : Approx) (eng : MeasureEngine) (s : GizmoState)
    (h : Reachable ap eng s) :
    s.m_features.length ≤ 1 ∧
      (s.m_mode = EMode.ExtendedSelection → s.m_features ≠ []) ∧
      s.m_volumes_types.length = s.m_volumes_matrices.length := by
  induction h with
  | initial => exact ⟨by decide, by decide, by decide⟩
  | @step s e _ ih =>
    obtain ⟨i1, i2, i3⟩ := ih
    cases e with
    | render fr =>
      obtain ⟨e1, e2, e3, e4⟩ := on_render_effect ap eng s fr
      simp only [step]
      refine ⟨?_, ?_, e3 i3⟩
      · rcases e2 with e2 | ⟨_, m, e2⟩
        · rw [e2]; exact i1
        · rw [e2]
          cases eng.get_feature m.its fr.facet_idx fr.pos <;> simp [Option.toList]
      · intro hext
        have hs : s.m_mode = EMode.ExtendedSelection := e1.symm.trans hext
        rw [(e4 hs).1]
        exact i2 hs
    | key action =>
      obtain ⟨e1, e2, e3, e4⟩ := gizmo_event_effect s action
      simp only [step]
      refine ⟨by rw [e1]; exact i1, ?_, by rw [e2, e3]; exact i3⟩
      intro hext
      rw [e1]
      rcases e4 hext with h | h
      · exact i2 h
      · exact h
    | mouse mouse_event first_hover_volume_idx =>
      obtain ⟨e1, e2, e3, e4⟩ := on_mouse_effect s mouse_event first_hover_volume_idx
      simp only [step]
      refine ⟨by rw [e2]; exact i1, ?_, by rw [e3, e4]; exact i3⟩
      intro hext
      rw [e2]
      exact i2 (e1.symm.trans hext)
    | activation state =>
      obtain ⟨e1, e2, e3, e4⟩ := set_state_effect s state
      simp only [step]
      refine ⟨by rw [e1]; exact i1, ?_, by rw [e2, e3]; exact i3⟩
      intro hext
      rw [e1]
      rcases e4 with h | h
      · exact i2 (h.symm.trans hext)
      · rw [h] at hext
        exact absurd hext (by decide)
    | selection single model_object model_volume si =>
      obtain ⟨e1, e2, e3⟩ := data_changed_effect ap eng s single model_object model_volume si
      simp only [step]
      refine ⟨by rw [e2]; exact i1, ?_, e3 i3⟩
      intro hext
      rw [e2]
      exact i2 (e1.symm.trans hext)

/-- A completed rebuild stores one matrix and one type per live volume. -/
theorem run_do_update_lengths (eng : MeasureEngine) (mo : ModelObject)
    (mv : Option ModelVolume) (r : UpdateOutcome)
    (h : (run_do_update eng mo mv r).fault = none) :
    (run_do_update eng mo mv r).state.m_volumes_matrices.length = mo.volumes.length ∧
      (run_do_update eng mo mv r).state.m_volumes_types.length = mo.volumes.length := by
  unfold run_do_update do_update at h ⊢
  split at h
  · rename_i heq
    revert heq
    split
    · intro heq
      simp at heq
    · split
      · intro heq
        simp at heq
      · intro heq
        simp only [Prod.mk.injEq] at heq
        rw [← heq.1]
        simp
  · simp at h

/-- When the per-volume loop of `update_if_needed` is entered (the first two
checks ended without a fault), the stored matrices are as many as the live
volumes, for every state; and so are the stored types, for a state whose two
snapshot vectors have one length. -/
theorem loop_entry_lengths (ap : Approx) (eng : MeasureEngine) (s : GizmoState)
    (mo : ModelObject) (mv : Option ModelVolume) (inst : ModelInstance)
    (hrun : (check_instance ap eng mo mv inst
      (check_identity eng mo mv ⟨s, 0, none⟩)).fault = none) :
    (check_instance ap eng mo mv inst
        (check_identity eng mo mv ⟨s, 0, none⟩)).state.m_volumes_matrices.length
        = mo.volumes.length ∧
      (s.m_volumes_types.length = s.m_volumes_matrices.length →
        (check_instance ap eng mo mv inst
          (check_identity eng mo mv ⟨s, 0, none⟩)).state.m_volumes_types.length
          = mo.volumes.length) := by
  have h1 : (check_identity eng mo mv ⟨s, 0, none⟩).fault = none →
      (check_identity eng mo mv ⟨s, 0, none⟩).state.m_volumes_matrices.length
          = mo.volumes.length ∧
        (s.m_volumes_types.length = s.m_volumes_matrices.length →
          (check_identity eng mo mv ⟨s, 0, none⟩).state.m_volumes_types.length
            = mo.volumes.length) := by
    unfold check_identity
    simp only []
    split
    · intro hf
      obtain ⟨a, b⟩ := run_do_update_lengths eng mo mv ⟨s, 0, none⟩ hf
      exact ⟨a, fun _ => b⟩
    · rename_i hid
      intro _
      have hcount : mo.volumes.length = s.m_volumes_matrices.length := by
        by_contra hne
        apply hid
        simp [identity_changed, hne]
      exact ⟨hcount.symm, fun hl => hl.trans hcount.symm⟩
  revert hrun
  unfold check_instance
  split
  · rename_i f hfault
    intro hrun
    rw [hfault] at hrun
    exact absurd hrun (by simp)
  · rename_i hfault
    split
    · intro hf
      obtain ⟨a, b⟩ := run_do_update_lengths eng mo mv _ hf
      exact ⟨a, fun _ => b⟩
    · intro _
      exact h1 hfault

/-- The switched-on gizmo is reachable: one activation change. -/
theorem switched_on_reachable : Reachable exact_approx facet_engine switched_on :=
  Reachable.step (Event.activation EState.On) Reachable.initial

/-- The gizmo hovering the square volume is reachable: activation, then one
render pass. -/
theorem square_hovered_reachable : Reachable exact_approx facet_engine square_hovered :=
  Reachable.step (Event.render hover_square) switched_on_reachable

/-- The gizmo locked on the square volume is reachable: activation, one render
pass, then a Ctrl press. -/
theorem square_locked_reachable : Reachable exact_approx facet_engine square_locked :=
  Reachable.step (Event.key SLAGizmoEventType.CtrlDown) square_hovered_reachable

/-- C11: in every state reachable from the initial state by render passes, key
events, mouse events, activation changes and selection changes, the active
feature set `m_features` holds at most one feature. -/
theorem reachable_features_at_most_one (ap : Approx) (eng : MeasureEngine) (s : GizmoState)
    (h : Reachable ap eng s) : s.m_features.length ≤ 1 :=
  (reachable_invariant ap eng s h).1

/-- C11 at the gizmo hovering the square volume: one feature is active. -/
theorem reachable_features_at_most_one_witness :
    square_hovered.m_features = [SurfaceFeature.Plane 1 ⟨0, 0, 1⟩ ⟨1, 1, 0⟩] ∧
      square_hovered.m_features.length ≤ 1 :=
  ⟨by decide,
    reachable_features_at_most_one exact_approx facet_engine square_hovered
      square_hovered_reachable⟩

/-- C13: in every state reachable from the initial state by render passes, key
events, mouse events, activation changes and selection changes, whenever the
mode is Extended the active feature set `m_features` is non-empty; and a render
pass in Extended mode leaves `m_features`, `m_raycasters` and the registry of
the canvas as they are. -/
theorem reachable_extended_has_feature (ap : Approx) (eng : MeasureEngine) (s : GizmoState)
    (h : Reachable ap eng s) (hext : s.m_mode = EMode.ExtendedSelection) :
    s.m_features ≠ [] ∧
      ∀ fr : Frame,
        (on_render ap eng s fr).1.m_features = s.m_features ∧
        (on_render ap eng s fr).1.m_raycasters = s.m_raycasters ∧
        (on_render ap eng s fr).1.m_parent = s.m_parent ∧
        (on_render ap eng s fr).1.m_mode = EMode.ExtendedSelection :=
  ⟨(reachable_invariant ap eng s h).2.1 hext, fun fr =>
    have e := on_render_effect ap eng s fr
    ⟨(e.2.2.2 hext).1, (e.2.2.2 hext).2.1, (e.2.2.2 hext).2.2, e.1.trans hext⟩⟩

/-- C13 at the gizmo locked on the square volume: the Plane feature is active,
and a render pass keeps it and its pick id. -/
theorem reachable_extended_has_feature_witness :
    square_locked.m_mode = EMode.ExtendedSelection ∧
      square_locked.m_features ≠ [] ∧
      (on_render exact_approx facet_engine square_locked hover_square).1.m_features
        = square_locked.m_features ∧
      (on_render exact_approx facet_engine square_locked hover_square).1.m_raycasters
        = square_locked.m_raycasters :=
  have h := reachable_extended_has_feature exact_approx facet_engine square_locked
    square_locked_reachable (by decide)
  ⟨by decide, h.1, (h.2 hover_square).1, (h.2 hover_square).2.1⟩

/-- C14: snapshot indexing in `update_if_needed` is always in bounds. In every
reachable state the stored vectors `m_volumes_matrices` and `m_volumes_types`
have equal length. For every gizmo state and live object, when the per-volume
comparison loop is entered (the two checks before it ended without a fault)
the number of stored matrices is the volume count of the live object. And
from a reachable state the number of stored types is that count too, so that
every `m_volumes_matrices[i]` and `m_volumes_types[i]` with
`i < volumes.size()` exists and the loop ends without an out-of-range
access. -/
theorem snapshot_indexing_in_bounds (ap : Approx) (eng : MeasureEngine) :
    (∀ s, Reachable ap eng s → s.m_volumes_types.length = s.m_volumes_matrices.length) ∧
      (∀ (s : GizmoState) (mo : ModelObject) (mv : Option ModelVolume) (inst : ModelInstance),
        (check_instance ap eng mo mv inst (check_identity eng mo mv ⟨s, 0, none⟩)).fault = none →
        (check_instance ap eng mo mv inst
          (check_identity eng mo mv ⟨s, 0, none⟩)).state.m_volumes_matrices.length
          = mo.volumes.length) ∧
      (∀ (s : GizmoState) (mo : ModelObject) (mv : Option ModelVolume) (inst : ModelInstance),
        Reachable ap eng s →
        (check_instance ap eng mo mv inst (check_identity eng mo mv ⟨s, 0, none⟩)).fault = none →
        (check_instance ap eng mo mv inst
          (check_identity eng mo mv ⟨s, 0, none⟩)).state.m_volumes_types.length
          = mo.volumes.length ∧
        (∀ i, i < mo.volumes.length →
          (∃ m, (check_instance ap eng mo mv inst
            (check_identity eng mo mv ⟨s, 0, none⟩)).state.m_volumes_matrices[i]? = some m) ∧
          (∃ t, (check_instance ap eng mo mv inst
            (check_identity eng mo mv ⟨s, 0, none⟩)).state.m_volumes_types[i]? = some t)) ∧
        (∃ b, volumes_differ ap
          (check_instance ap eng mo mv inst
            (check_identity eng mo mv ⟨s, 0, none⟩)).state.m_volumes_matrices
          (check_instance ap eng mo mv inst
            (check_identity eng mo mv ⟨s, 0, none⟩)).state.m_volumes_types 0 mo.volumes
          = .ok b)) := by
  refine ⟨fun s h => (reachable_invariant ap eng s h).2.2, ?_, ?_⟩
  · intro s mo mv inst hrun
    exact (loop_entry_lengths ap eng s mo mv inst hrun).1
  · intro s mo mv inst h hrun
    obtain ⟨hm, ht⟩ := loop_entry_lengths ap eng s mo mv inst hrun
    have ht := ht (reachable_invariant ap eng s h).2.2
    refine ⟨ht, ?_, ?_⟩
    · intro i hi
      exact ⟨⟨_, List.getElem?_eq_getElem (by rw [hm]; exact hi)⟩,
        ⟨_, List.getElem?_eq_getElem (by rw [ht]; exact hi)⟩⟩
    · obtain ⟨b, hb, _⟩ := volumes_differ_in_range ap _ _ mo.volumes 0
        (by rw [hm]; omega) (by rw [ht]; omega)
      exact ⟨b, hb⟩

/-- C14 at the gizmo hovering the square volume when the selection moves to
the triangle volume: the loop is entered after a rebuild and ends without an
out-of-range access. -/
theorem snapshot_indexing_in_bounds_witness :
    square_hovered.m_volumes_types.length = square_hovered.m_volumes_matrices.length ∧
      ∃ b, volumes_differ exact_approx
        (check_instance exact_approx facet_engine triangle_object (some triangle_volume)
          ⟨Vec3d.Ones, Vec3d.Ones⟩
          (check_identity facet_engine triangle_object (some triangle_volume)
            ⟨square_hovered, 0, none⟩)).state.m_volumes_matrices
        (check_instance exact_approx facet_engine triangle_object (some triangle_volume)
          ⟨Vec3d.Ones, Vec3d.Ones⟩
          (check_identity facet_engine triangle_object (some triangle_volume)
            ⟨square_hovered, 0, none⟩)).state.m_volumes_types 0 triangle_object.volumes
        = .ok b :=
  have h := snapshot_indexing_in_bounds exact_approx facet_engine
  ⟨h.1 square_hovered square_hovered_reachable,
    (h.2.2 square_hovered triangle_object (some triangle_volume) ⟨Vec3d.Ones, Vec3d.Ones⟩
      square_hovered_reachable (by decide)).2.2⟩

/-- Every run of events from a reachable state ends in a reachable state. -/
theorem run_reachable (ap : Approx) (eng : MeasureEngine) (es : List Event) (s : GizmoState)
    (h : Reachable ap eng s) : Reachable ap eng (run ap eng s es) := by
  induction es generalizing s with
  | nil => exact h
  | cons e rest ih => exact ih (step ap eng s e) (Reachable.step e h)

/-- The gizmo locked on the square volume is the end of a run of three events
from the initial state. -/
theorem square_locked_run :
    run exact_approx facet_engine GizmoState.initial
      [Event.activation EState.On, Event.render hover_square,
        Event.key SLAGizmoEventType.CtrlDown] = square_locked :=
  rfl

end GLGizmoMeasure
